/-
Verification of the analytics/scoring core of the blog-CRM microservice
(packages analytics and seo of the Go sources).

Modelling conventions, applied uniformly:

* Go float64 values are modelled as exact rationals (ℚ).  All constants in
  the source are short decimals, so every branch threshold is exact; the
  idealisation is noted at each site where IEEE rounding or the IEEE
  special values (Inf/NaN after a division by zero) could make the Go
  program differ, and such sites are modelled explicitly when a claim
  depends on them (see scoreWebsiteActivity).
* Go int is modelled as Int (no arithmetic in the sources comes close to
  2^63).  Go conversion int(f) of a float64 truncates toward zero, modelled
  by ratTrunc.
* Go time.Time is modelled as Unix epoch seconds (Int); t1.Sub(t2) in days
  is (t1 - t2)/86400, t.AddDate(0,0,n) is t + 86400*n (UTC, no DST in the
  model), and the weekday/month of an epoch second are computed by the
  standard civil-calendar conversion.  The zero time.Time (IsZero) is
  modelled by Option: none is the zero time.
* Go strings are modelled as Lean String; byte length len(s) is
  String.utf8ByteSize, and substring search is at character level (valid
  UTF-8 substring matches always fall on character boundaries).
  strings.ToLower is String.toLower; the two agree on ASCII, which is all
  the fixed word lists use.
* math.Sqrt appears only in the trend analyzer (standard deviation,
  volatility).  The square root of a rational is irrational in general, so
  the embedding carries the squares of those quantities (fields named
  ...Sq) and phrases every threshold comparison on squares, which is
  equivalent because squaring is strictly monotone on nonnegatives: the
  source's stdDev > 0 is stdDevSq > 0 and zScore > 2 is zScoreSq > 4.
* Go map iteration order is randomized; wherever the source iterates a map
  (anchor-text statistics, seasonality grouping) the embedding uses a
  deterministic canonical order (first appearance) or an extensional
  function, noted at the site.
-/
import Mathlib

/-! ## Go primitive helpers -/

/-- Go conversion int(f) of a float64: truncation toward zero. -/
def ratTrunc (q : ℚ) : Int := if q < 0 then -⌊-q⌋ else ⌊q⌋

theorem ratTrunc_nonneg {q : ℚ} (h : 0 ≤ q) : 0 ≤ ratTrunc q := by
  unfold ratTrunc
  rw [if_neg (not_lt.mpr h)]
  exact Int.floor_nonneg.mpr h

theorem ratTrunc_le {q : ℚ} {b : ℤ} (h : q ≤ (b : ℚ)) (hb : 0 ≤ b) : ratTrunc q ≤ b := by
  unfold ratTrunc
  split
  · rename_i hq
    have h0 : 0 ≤ ⌊-q⌋ := Int.floor_nonneg.mpr (by linarith)
    omega
  · calc ⌊q⌋ ≤ ⌊(b : ℚ)⌋ := Int.floor_le_floor h
    _ = b := Int.floor_intCast b

theorem ratTrunc_neg_of_lt {q : ℚ} (h : q < -1) : ratTrunc q < 0 := by
  unfold ratTrunc
  rw [if_pos (h.trans (by norm_num))]
  have : (1 : ℚ) < -q := by linarith
  have h1 : (1 : ℤ) ≤ ⌊-q⌋ := by
    rw [Int.le_floor]; push_cast; linarith
  omega

/-- Substring test on character lists (Go strings.Contains; note
Contains(s, "") is true). -/
def containsSub : List Char → List Char → Bool
  | [], n => n.isEmpty
  | c :: t, n => n.isPrefixOf (c :: t) || containsSub t n

/-- Character index of the first occurrence of a substring (none if absent). -/
def subPos : List Char → List Char → Option Nat
  | [], n => if n.isEmpty then some 0 else none
  | c :: t, n => if n.isPrefixOf (c :: t) then some 0 else (subPos t n).map (· + 1)

/-- UTF-8 byte length of a character list. -/
def utf8Len (l : List Char) : Nat := (l.map Char.utf8Size).sum

/-- Go strings.Contains on strings. -/
def goContains (s sub : String) : Bool := containsSub s.data sub.data

/-- Go strings.Index: byte index of the first occurrence, -1 if absent. -/
def goIndex (s sub : String) : Int :=
  match subPos s.data sub.data with
  | some k => (utf8Len (s.data.take k) : Int)
  | none => -1

/-- Go len(s): byte length. -/
def goLen (s : String) : Nat := utf8Len s.data

/-- Whitespace class used by strings.Fields and by the \s of the word-count
regexp (the sources only ever meet ASCII whitespace, where the two agree). -/
def goIsSpace (c : Char) : Bool :=
  c = ' ' || c = '\t' || c = '\n' || c = '\r' || c = '\x0c' || c = '\x0b'

def fieldsAux : List Char → List Char → List (List Char)
  | [], acc => if acc.isEmpty then [] else [acc.reverse]
  | c :: t, acc =>
      if goIsSpace c then
        if acc.isEmpty then fieldsAux t [] else acc.reverse :: fieldsAux t []
      else fieldsAux t (c :: acc)

/-- Go strings.Fields: maximal whitespace-free runs. -/
def goFields (s : String) : List String := (fieldsAux s.data []).map String.mk

/-- ASCII lowering, Go strings.ToLower (the inputs the claims quantify over
and every fixed word list are ASCII, where Go's Unicode lowering agrees). -/
def charToLower (c : Char) : Char :=
  if 'A' ≤ c && c ≤ 'Z' then Char.ofNat (c.toNat + 32) else c

def goToLower (s : String) : String := String.mk (s.data.map charToLower)

/-- Go strings.TrimSpace (ASCII whitespace, see goIsSpace). -/
def goTrim (s : String) : String :=
  String.mk (((s.data.dropWhile goIsSpace).reverse.dropWhile goIsSpace).reverse)

/-- Join with single spaces, strings.Join(words, " "). -/
def joinSpace : List (List Char) → List Char
  | [] => []
  | [w] => w
  | w :: ws => w ++ ' ' :: joinSpace ws

/-- Non-overlapping occurrence count, Go strings.Count (sub nonempty). -/
def countOccurAux (n : List Char) : List Char → Nat
  | [] => 0
  | c :: t =>
      if n.isPrefixOf (c :: t) then 1 + countOccurAux n (t.drop (n.length - 1))
      else countOccurAux n t
termination_by l => l.length
decreasing_by
  all_goals simp_wf
  all_goals omega

/-- Go strings.Count (Count(s, "") is the rune count plus one). -/
def goCount (s sub : String) : Nat :=
  if sub.isEmpty then s.data.length + 1 else countOccurAux sub.data s.data

/-- Split a character list around maximal runs of separator characters, as
regexp.Split with a pattern like a character-class plus does: the number of
parts is the number of runs plus one. -/
def splitRunsAux (p : Char → Bool) : List Char → List Char → Bool → List (List Char)
  | [], acc, _ => [acc.reverse]
  | c :: t, acc, inSep =>
      if p c then
        if inSep then splitRunsAux p t acc true
        else acc.reverse :: splitRunsAux p t [] true
      else splitRunsAux p t (c :: acc) false

def splitRuns (p : Char → Bool) (l : List Char) : List (List Char) :=
  splitRunsAux p l [] false

/-- First-appearance deduplication (canonical order for the source's map
iterations, whose Go order is randomized). -/
def dedupFirst : List String → List String
  | [] => []
  | a :: t => a :: dedupFirst (t.filter (· ≠ a))
termination_by l => l.length
decreasing_by
  simp_wf
  have := List.length_filter_le (fun x => !decide (x = a)) t
  omega

namespace Analytics

/-! ## ROI calculator (pkg/analytics/roi_calculator.go) -/

structure ContentInvestment where
  creationCost : ℚ
  promotionCost : ℚ
  toolsCost : ℚ
  timeInvested : ℚ
  hourlyRate : ℚ
  opportunityCost : ℚ
deriving DecidableEq

structure DirectConversion where
  customerID : Nat
  revenue : ℚ
  convertedAt : Int
  productType : String
deriving DecidableEq

structure AttributedConversion where
  customerID : Nat
  revenue : ℚ
  attributionWeight : ℚ
  isFirstTouch : Bool
  isLastTouch : Bool
  touchPosition : Int
  totalTouches : Int
  daysFromTouch : Int
  convertedAt : Int
deriving DecidableEq

/-- The struct in the performance-calculator file declares pageViews,
avgTimeOnPage, bounceRate, avgScrollDepth, socialShares, comments; the ROI
calculator additionally reads Downloads and NewsletterSignups from it
(fields absent from that declaration, so the Go package as given does not
even compile).  The model includes the two read fields so the expression
the ROI code writes is well-formed. -/
structure EngagementMetrics where
  pageViews : Int
  avgTimeOnPage : Int
  bounceRate : ℚ
  avgScrollDepth : ℚ
  socialShares : Int
  comments : Int
  downloads : Int
  newsletterSignups : Int
deriving DecidableEq

structure EngagementValueMetrics where
  pageViewValue : ℚ
  shareValue : ℚ
  commentValue : ℚ
  downloadValue : ℚ
  signupValue : ℚ
deriving DecidableEq

structure BrandMetrics where
  brandMentions : ℚ
  mentionValue : ℚ
  backlinkValue : ℚ
  searchVisibilityValue : ℚ
  thoughtLeadershipValue : ℚ
deriving DecidableEq

structure ContentROIMetrics where
  contentID : Nat
  title : String
  publishedAt : Int
  period : Int
  investment : ContentInvestment
  directConversions : List DirectConversion
  attributedConversions : List AttributedConversion
  attributionModel : String
  leads : Int
  newCustomers : Int
  averageCLV : ℚ
  engagement : EngagementMetrics
  engagementValue : EngagementValueMetrics
  brandMetrics : BrandMetrics
deriving DecidableEq

structure ContentROIResult where
  contentID : Nat
  title : String
  publishedAt : Int
  period : Int
  totalInvestment : ℚ
  directRevenue : ℚ
  indirectRevenue : ℚ
  totalRevenue : ℚ
  roiPercentage : ℚ
  paybackPeriod : ℚ
  clvImpact : ℚ
  leadValue : ℚ
  costPerLead : ℚ
  costPerAcquisition : ℚ
  engagementValue : ℚ
  brandValue : ℚ
deriving DecidableEq

def calculateTotalInvestment (investment : ContentInvestment) : ℚ :=
  investment.creationCost + investment.promotionCost + investment.toolsCost
    + investment.timeInvested * investment.hourlyRate
    + investment.opportunityCost

def calculateDirectRevenue (conversions : List DirectConversion) : ℚ :=
  (conversions.map (fun c => c.revenue)).sum

/-- Exponent of the source's time-decay weight exp(-0.1 * daysFromTouch). -/
def timeDecayExponent (daysFromTouch : Int) : ℚ := -(1/10) * daysFromTouch

def calculatePositionBasedWeight (position total : Int) : ℚ :=
  if total = 1 then 1
  else if position = 1 then 0.4
  else if position = total then 0.2
  else
    let middleTouches := total - 2
    if middleTouches > 0 then 0.4 / (middleTouches : ℚ)
    else 0

/-- Rational stand-in for the source's exp(-0.1*daysFromTouch), which is
irrational and hence not representable in this exact model.  No theorem in
this file evaluates the time_decay branch; it is embedded with this
definite stand-in only so the attribution dispatch below is total and
executable. -/
def timeDecayWeightModel (daysFromTouch : Int) : ℚ := 1 + timeDecayExponent daysFromTouch

def attributedContribution (model : String) (c : AttributedConversion) : ℚ :=
  if model = "first_touch" then (if c.isFirstTouch then c.revenue else 0)
  else if model = "last_touch" then (if c.isLastTouch then c.revenue else 0)
  else if model = "linear" then c.revenue * c.attributionWeight
  else if model = "time_decay" then c.revenue * timeDecayWeightModel c.daysFromTouch
  else if model = "position_based" then
    c.revenue * calculatePositionBasedWeight c.touchPosition c.totalTouches
  else c.revenue * c.attributionWeight

def calculateIndirectRevenue (conversions : List AttributedConversion) (model : String) : ℚ :=
  (conversions.map (attributedContribution model)).sum

/-- Source: if revenue <= 0 return -1; dailyRevenue := revenue/periodDays;
if dailyRevenue <= 0 return -1; return investment/dailyRevenue.  When
periodDays = 0 the Go division yields +Inf (revenue > 0 there), +Inf <= 0
is false, and investment/+Inf is 0; the periodDays = 0 arm mirrors that.
Negative periodDays give a negative dailyRevenue, hence -1, as in Go. -/
def calculatePaybackPeriod (investment revenue : ℚ) (periodDays : Int) : ℚ :=
  if revenue ≤ 0 then -1
  else if periodDays = 0 then 0
  else
    let dailyRevenue := revenue / (periodDays : ℚ)
    if dailyRevenue ≤ 0 then -1
    else investment / dailyRevenue

def calculateCLVImpact (newCustomers : Int) (averageCLV : ℚ) : ℚ :=
  (newCustomers : ℚ) * averageCLV

def calculateLeadValue (leads : Int) (totalRevenue : ℚ) : ℚ :=
  if leads = 0 then 0 else totalRevenue / (leads : ℚ)

def calculateCostPerLead (investment : ℚ) (leads : Int) : ℚ :=
  if leads = 0 then 0 else investment / (leads : ℚ)

def calculateCostPerAcquisition (investment : ℚ) (conversions : List DirectConversion) : ℚ :=
  if conversions.length = 0 then 0 else investment / (conversions.length : ℚ)

def calculateEngagementValue (engagement : EngagementMetrics)
    (valueMetrics : EngagementValueMetrics) : ℚ :=
  (engagement.pageViews : ℚ) * valueMetrics.pageViewValue
    + (engagement.socialShares : ℚ) * valueMetrics.shareValue
    + (engagement.comments : ℚ) * valueMetrics.commentValue
    + (engagement.downloads : ℚ) * valueMetrics.downloadValue
    + (engagement.newsletterSignups : ℚ) * valueMetrics.signupValue

def calculateBrandValue (metrics : BrandMetrics) : ℚ :=
  metrics.brandMentions * metrics.mentionValue
    + metrics.backlinkValue
    + metrics.searchVisibilityValue
    + metrics.thoughtLeadershipValue

def CalculateContentROI (metrics : ContentROIMetrics) : ContentROIResult :=
  let totalInvestment := calculateTotalInvestment metrics.investment
  let directRevenue := calculateDirectRevenue metrics.directConversions
  let indirectRevenue :=
    calculateIndirectRevenue metrics.attributedConversions metrics.attributionModel
  let totalRevenue := directRevenue + indirectRevenue
  { contentID := metrics.contentID
    title := metrics.title
    publishedAt := metrics.publishedAt
    period := metrics.period
    totalInvestment := totalInvestment
    directRevenue := directRevenue
    indirectRevenue := indirectRevenue
    totalRevenue := totalRevenue
    roiPercentage :=
      if totalInvestment > 0 then
        (totalRevenue - totalInvestment) / totalInvestment * 100
      else 0
    paybackPeriod := calculatePaybackPeriod totalInvestment totalRevenue metrics.period
    clvImpact := calculateCLVImpact metrics.newCustomers metrics.averageCLV
    leadValue := calculateLeadValue metrics.leads totalRevenue
    costPerLead := calculateCostPerLead totalInvestment metrics.leads
    costPerAcquisition := calculateCostPerAcquisition totalInvestment metrics.directConversions
    engagementValue := calculateEngagementValue metrics.engagement metrics.engagementValue
    brandValue := calculateBrandValue metrics.brandMetrics }

end Analytics

namespace Analytics

/-! ## Lead scorer (lead_scorer.go, package analytics) -/

structure Demographics where
  jobTitle : String
  industry : String
  location : String
  experienceLevel : String
deriving DecidableEq

/-- lastActivity is a time.Time; none models the zero time (IsZero). -/
structure Behavior where
  pageViews : Int
  totalTimeOnSite : Int
  visitCount : Int
  blogPostsRead : Int
  downloads : Int
  videoWatchTime : Int
  socialEngagements : Int
  servicePagesVisited : Bool
  pricingPagesVisited : Bool
  contactPagesVisited : Bool
  searchQueries : Int
  lastActivity : Option ℚ
deriving DecidableEq

structure Company where
  name : String
  size : String
  industry : String
  revenue : String
  technologyStack : List String
deriving DecidableEq

structure Intent where
  sourceType : String
  contentTypes : List String
  ctaInteractions : Int
  formCompletions : Int
deriving DecidableEq

structure LeadProfile where
  demographics : Demographics
  behavior : Behavior
  company : Company
  intent : Intent
deriving DecidableEq

def scoreJobTitle (title : String) : ℚ :=
  let title := goToLower title
  let highValueTitles := ["ceo", "cto", "cfo", "cmo", "vp", "vice president", "director", "head of", "chief"]
  let mediumValueTitles := ["manager", "lead", "senior", "principal", "architect", "consultant"]
  let entryTitles := ["developer", "engineer", "analyst", "specialist", "coordinator", "associate"]
  if highValueTitles.any (fun w => goContains title w) then 90
  else if mediumValueTitles.any (fun w => goContains title w) then 70
  else if entryTitles.any (fun w => goContains title w) then 50
  else 30

def scoreIndustry (industry : String) : ℚ :=
  let industry := goToLower industry
  let highFitIndustries := ["technology", "software", "saas", "fintech", "healthtech", "edtech", "startup"]
  let mediumFitIndustries := ["finance", "healthcare", "education", "retail", "ecommerce", "manufacturing"]
  if highFitIndustries.any (fun w => goContains industry w) then 90
  else if mediumFitIndustries.any (fun w => goContains industry w) then 70
  else 50

def scoreLocation (location : String) : ℚ :=
  let location := goToLower location
  let highValueLocations := ["india", "usa", "canada", "uk", "australia", "singapore", "germany", "france"]
  if highValueLocations.any (fun w => goContains location w) then 85
  else 60

def scoreExperienceLevel (experience : String) : ℚ :=
  let experience := goToLower experience
  if goContains experience "senior" || goContains experience "lead" then 80
  else if goContains experience "mid" || goContains experience "intermediate" then 70
  else if goContains experience "junior" || goContains experience "entry" then 50
  else 60

def calculateDemographicScore (demo : Demographics) : ℚ :=
  scoreJobTitle demo.jobTitle * 0.4
    + scoreIndustry demo.industry * 0.3
    + scoreLocation demo.location * 0.2
    + scoreExperienceLevel demo.experienceLevel * 0.1

def scoreEngagementLevel (behavior : Behavior) : ℚ :=
  let pv : ℚ :=
    if behavior.pageViews ≥ 10 then 30
    else if behavior.pageViews ≥ 5 then 20
    else if behavior.pageViews ≥ 2 then 10 else 0
  let ts : ℚ :=
    if behavior.totalTimeOnSite ≥ 1800 then 30
    else if behavior.totalTimeOnSite ≥ 900 then 20
    else if behavior.totalTimeOnSite ≥ 300 then 10 else 0
  let vc : ℚ :=
    if behavior.visitCount ≥ 5 then 40
    else if behavior.visitCount ≥ 3 then 25
    else if behavior.visitCount ≥ 2 then 15 else 0
  min (pv + ts + vc) 100

def scoreContentConsumption (behavior : Behavior) : ℚ :=
  let blog : ℚ :=
    if behavior.blogPostsRead ≥ 5 then 30
    else if behavior.blogPostsRead ≥ 3 then 20
    else if behavior.blogPostsRead ≥ 1 then 10 else 0
  let dl : ℚ := (behavior.downloads : ℚ) * 15
  let video : ℚ :=
    if behavior.videoWatchTime ≥ 600 then 25
    else if behavior.videoWatchTime ≥ 300 then 15
    else if behavior.videoWatchTime ≥ 60 then 5 else 0
  let social : ℚ := (behavior.socialEngagements : ℚ) * 5
  min (blog + dl + video + social) 100

/-- Depth-of-visit component of website-activity scoring.  The source
computes avgPagesPerSession := float64(PageViews)/float64(VisitCount) with
no guard on VisitCount: when VisitCount = 0 the IEEE division gives +Inf
for PageViews > 0 (so the ≥ 5 branch fires, 25 points), -Inf for
PageViews < 0 and NaN for 0/0 (no branch fires, 0 points).  The
visitCount = 0 arm spells those float semantics out exactly. -/
def depthOfVisitScore (behavior : Behavior) : ℚ :=
  if behavior.visitCount = 0 then
    if behavior.pageViews > 0 then 25 else 0
  else
    let avgPagesPerSession := (behavior.pageViews : ℚ) / (behavior.visitCount : ℚ)
    if avgPagesPerSession ≥ 5 then 25
    else if avgPagesPerSession ≥ 3 then 15
    else if avgPagesPerSession ≥ 2 then 10 else 0

def scoreWebsiteActivity (behavior : Behavior) : ℚ :=
  let depth := depthOfVisitScore behavior
  let service : ℚ := if behavior.servicePagesVisited then 30 else 0
  let pricing : ℚ := if behavior.pricingPagesVisited then 35 else 0
  let contact : ℚ := if behavior.contactPagesVisited then 20 else 0
  let search : ℚ := (behavior.searchQueries : ℚ) * 5
  min (depth + service + pricing + contact + search) 100

/-- scoreRecency uses time.Since(lastActivity), i.e. the wall clock: the
model passes the current time now (epoch seconds) explicitly. -/
def scoreRecency (now : ℚ) (lastActivity : Option ℚ) : ℚ :=
  match lastActivity with
  | none => 0
  | some t =>
      let daysSinceActivity := (now - t) / 86400
      if daysSinceActivity ≤ 1 then 100
      else if daysSinceActivity ≤ 7 then 80
      else if daysSinceActivity ≤ 30 then 60
      else if daysSinceActivity ≤ 90 then 40
      else 20

def calculateBehavioralScore (now : ℚ) (behavior : Behavior) : ℚ :=
  scoreEngagementLevel behavior * 0.3
    + scoreContentConsumption behavior * 0.25
    + scoreWebsiteActivity behavior * 0.25
    + scoreRecency now behavior.lastActivity * 0.2

def scoreCompanySize (size : String) : ℚ :=
  let size := goToLower size
  if goContains size "enterprise" || goContains size "large" then 90
  else if goContains size "medium" || goContains size "mid" then 80
  else if goContains size "small" || goContains size "startup" then 70
  else 60

def scoreIndustryFit (industry : String) : ℚ := scoreIndustry industry

def scoreRevenue (revenue : String) : ℚ :=
  let revenue := goToLower revenue
  if goContains revenue "100m+" || goContains revenue "billion" then 95
  else if goContains revenue "50m" || goContains revenue "10m" then 85
  else if goContains revenue "1m" || goContains revenue "5m" then 75
  else if goContains revenue "500k" || goContains revenue "1m" then 65
  else 50

def relevantTech : List String :=
  ["react", "node", "python", "go", "aws", "azure", "gcp", "kubernetes", "docker"]

def scoreTechnologyStack (stack : List String) : ℚ :=
  if stack.length = 0 then 50
  else
    let matchCount :=
      (stack.filter (fun tech => relevantTech.any (fun r => goContains (goToLower tech) r))).length
    min (50 + (matchCount : ℚ) * 10) 100

def calculateFirmographicScore (company : Company) : ℚ :=
  if company.name = "" then 50
  else
    scoreCompanySize company.size * 0.4
      + scoreIndustryFit company.industry * 0.3
      + scoreRevenue company.revenue * 0.2
      + scoreTechnologyStack company.technologyStack * 0.1

def scoreSourceType (sourceType : String) : ℚ :=
  let s := goToLower sourceType
  if s = "contact_form" then 95
  else if s = "download" then 85
  else if s = "newsletter" then 70
  else if s = "cta" then 80
  else if s = "social_share" then 60
  else 50

def contentTypeValue (contentType : String) : ℚ :=
  let s := goToLower contentType
  if s = "case_study" then 90
  else if s = "whitepaper" then 85
  else if s = "webinar" then 80
  else if s = "tutorial" then 70
  else if s = "blog" then 60
  else 50

def scoreContentTypeEngagement (contentTypes : List String) : ℚ :=
  if contentTypes.length = 0 then 40
  else
    let totalScore := (contentTypes.map contentTypeValue).sum
    min (totalScore / (contentTypes.length : ℚ)) 100

def scoreCTAInteraction (interactions : Int) : ℚ :=
  if interactions ≥ 5 then 100
  else if interactions ≥ 3 then 80
  else if interactions ≥ 1 then 60
  else 20

def scoreFormCompletions (completions : Int) : ℚ :=
  if completions ≥ 3 then 100
  else if completions ≥ 2 then 85
  else if completions ≥ 1 then 70
  else 30

def calculateIntentScore (intent : Intent) : ℚ :=
  scoreSourceType intent.sourceType * 0.3
    + scoreContentTypeEngagement intent.contentTypes * 0.25
    + scoreCTAInteraction intent.ctaInteractions * 0.25
    + scoreFormCompletions intent.formCompletions * 0.2

def CalculateLeadScore (now : ℚ) (profile : LeadProfile) : Int :=
  let totalScore :=
    calculateDemographicScore profile.demographics * 0.25
      + calculateBehavioralScore now profile.behavior * 0.35
      + calculateFirmographicScore profile.company * 0.25
      + calculateIntentScore profile.intent * 0.15
  ratTrunc (min totalScore 100)

/-- The source also takes the LeadProfile and never reads it. -/
def AutoQualifyLead (leadScore : Int) (_profile : LeadProfile) : String :=
  if leadScore ≥ 80 then "hot"
  else if leadScore ≥ 60 then "warm"
  else if leadScore ≥ 40 then "cold"
  else "unqualified"

end Analytics

namespace Analytics

/-! ## Trend analyzer (pkg/analytics/trend_analyzer.go)

Dates are Unix epoch seconds.  The quantities the source passes through
math.Sqrt (window standard deviation, volatility, the forecast confidence
interval) are carried as their squares, see the file header. -/

structure TrendDataPoint where
  date : Int
  value : ℚ
deriving DecidableEq

instance : Inhabited TrendDataPoint := ⟨⟨0, 0⟩⟩

structure LinearRegression where
  slope : ℚ
  intercept : ℚ
  rSquared : ℚ
deriving DecidableEq

structure SeasonalityAnalysis where
  hasSeasonality : Bool
  dayOfWeekPattern : Int → Option ℚ
  monthlyPattern : Int → Option ℚ

/-- The source stores ZScore = |value-mean|/stdDev when stdDev > 0 and the
raw |value-mean| otherwise; zScoreSq is the square of that stored value,
exact in ℚ. -/
structure Anomaly where
  date : Int
  value : ℚ
  expected : ℚ
  deviation : ℚ
  zScoreSq : ℚ
  type : String
deriving DecidableEq

/-- The source's ConfidenceInterval is volatility * 1.96 (irrational here),
carried as its square; LowerBound/UpperBound are the derived
predictedValue -+ sqrt(confidenceIntervalSq) and are not separate fields. -/
structure ForecastPoint where
  date : Int
  predictedValue : ℚ
  confidenceIntervalSq : ℚ
deriving DecidableEq

structure TrendAnalysis where
  points : Nat
  status : String
  startDate : Int
  endDate : Int
  startValue : ℚ
  endValue : ℚ
  minValue : ℚ
  maxValue : ℚ
  averageValue : ℚ
  linearRegression : LinearRegression
  trendDirection : String
  trendStrength : String
  totalGrowth : ℚ
  averageGrowthRate : ℚ
  seasonalityAnalysis : SeasonalityAnalysis
  anomalies : List Anomaly
  volatilitySq : ℚ
  forecast : List ForecastPoint
  insights : List String
  dataPoints : List TrendDataPoint

def byDate : TrendDataPoint → TrendDataPoint → Prop := fun p q => p.date ≤ q.date

instance : DecidableRel byDate := fun p q => inferInstanceAs (Decidable (p.date ≤ q.date))

instance : IsTotal TrendDataPoint byDate := ⟨fun p q => Int.le_total p.date q.date⟩

instance : IsTrans TrendDataPoint byDate := ⟨fun _ _ _ h h2 => le_trans h h2⟩

/-- The source sorts the caller's slice in place with sort.Slice (unstable)
and the Before (strict less) comparator; the result is some date-sorted
permutation, canonicalised here as the stable insertion sort.  Inputs with
distinct dates have a unique sorted permutation, so the canonicalisation is
exact for them. -/
def sortByDate (data : List TrendDataPoint) : List TrendDataPoint :=
  data.insertionSort byDate

def calculateBasicStats : List TrendDataPoint → ℚ × ℚ × ℚ
  | [] => (0, 0, 0)
  | p :: t =>
      let l := p :: t
      let minV := l.foldl (fun m q => if q.value < m then q.value else m) p.value
      let maxV := l.foldl (fun m q => if q.value > m then q.value else m) p.value
      (minV, maxV, (l.map (·.value)).sum / (l.length : ℚ))

/-- Day offset of a point from the base time: Sub(...).Hours()/24. -/
def xOf (baseTime : Int) (p : TrendDataPoint) : ℚ :=
  ((p.date - baseTime : Int) : ℚ) / 3600 / 24

/-- Ordinary least squares on (day offset, value).  The source also
accumulates sumY2 and never reads it.  When every date is equal the Go
slope is a division by zero (NaN); in ℚ it is 0 — no claim exercises that
case.  The source computes rSquared := 1 - ssRes/ssTot and then overwrites
it with 0 if ssTot == 0, which is the if-expression below. -/
def calculateLinearRegression (data : List TrendDataPoint) : LinearRegression :=
  if data.length < 2 then ⟨0, 0, 0⟩
  else
    let n : ℚ := data.length
    let baseTime := data.headI.date
    let x := fun p => xOf baseTime p
        let sumX := (data.map x).sum
        let sumY := (data.map (·.value)).sum
        let sumXY := (data.map (fun p => x p * p.value)).sum
        let sumX2 := (data.map (fun p => x p * x p)).sum
        let slope := (n * sumXY - sumX * sumY) / (n * sumX2 - sumX * sumX)
        let intercept := (sumY - slope * sumX) / n
        let meanY := sumY / n
        let ssRes :=
          (data.map (fun p =>
            (p.value - (slope * x p + intercept)) * (p.value - (slope * x p + intercept)))).sum
        let ssTot := (data.map (fun p => (p.value - meanY) * (p.value - meanY))).sum
        ⟨slope, intercept, if ssTot = 0 then 0 else 1 - ssRes / ssTot⟩

def determineTrendDirection (slope : ℚ) : String :=
  if slope > 0.1 then "strongly_increasing"
  else if slope > 0.01 then "increasing"
  else if slope < -0.1 then "strongly_decreasing"
  else if slope < -0.01 then "decreasing"
  else "stable"

def calculateTrendStrength (rSquared : ℚ) : String :=
  if rSquared ≥ 0.9 then "very_strong"
  else if rSquared ≥ 0.7 then "strong"
  else if rSquared ≥ 0.5 then "moderate"
  else if rSquared ≥ 0.3 then "weak"
  else "very_weak"

def calculateTotalGrowth (startValue endValue : ℚ) : ℚ :=
  if startValue = 0 then 0
  else (endValue - startValue) / startValue * 100

def calculateAverageGrowthRate (data : List TrendDataPoint) : ℚ :=
  if data.length < 2 then 0
  else
    let rates :=
      ((data.zip data.tail).filter (fun pr => pr.1.value ≠ 0)).map
        (fun pr => (pr.2.value - pr.1.value) / pr.1.value * 100)
    if rates.length = 0 then 0
    else rates.sum / (rates.length : ℚ)

/-- Go Weekday of an epoch second (Sunday = 0; day 0 was a Thursday). -/
def weekdayOf (date : Int) : Int := (Int.fdiv date 86400 + 4).emod 7

/-- Month (1..12) of an epoch second, by the standard civil-from-days
conversion of the proleptic Gregorian calendar. -/
def monthOf (date : Int) : Int :=
  let z := Int.fdiv date 86400 + 719468
  let era := Int.fdiv z 146097
  let doe := z - era * 146097
  let yoe := Int.fdiv (doe - Int.fdiv doe 1460 + Int.fdiv doe 36524 - Int.fdiv doe 146096) 365
  let doy := doe - (365 * yoe + Int.fdiv yoe 4 - Int.fdiv yoe 100)
  let mp := Int.fdiv (5 * doy + 2) 153
  if mp < 10 then mp + 3 else mp - 9

/-- Grouping by weekday/month is a Go map; it is modelled extensionally as
the function from key to average (none when no point has that key), which
is what the map holds after the loop regardless of iteration order.  The
deviation test divides by overallAverage: when that is 0 Go gets
|avg/0| = +Inf > 0.2 for avg /= 0 and NaN (no) for avg = 0, spelled out in
the overallAverage = 0 arm. -/
def detectSeasonality (data : List TrendDataPoint) : SeasonalityAnalysis :=
  if data.length < 7 then ⟨false, fun _ => none, fun _ => none⟩
  else
    let dayAverages : Int → Option ℚ := fun w =>
      let vals := (data.filter (fun p => weekdayOf p.date = w)).map (·.value)
      if vals.length = 0 then none else some (vals.sum / (vals.length : ℚ))
    let overallAverage : ℚ :=
      if data.length > 0 then (data.map (·.value)).sum / (data.length : ℚ) else 0
    let significant : ℚ → Bool := fun avg =>
      if overallAverage = 0 then avg ≠ 0
      else |(avg - overallAverage) / overallAverage| > 0.2
    let significantVariations :=
      (((List.range 7).map (fun w : ℕ => dayAverages (w : Int))).filterMap id).countP significant
    let monthlyPattern : Int → Option ℚ :=
      if data.length > 30 then fun m =>
        let vals := (data.filter (fun p => monthOf p.date = m)).map (·.value)
        if vals.length = 0 then none else some (vals.sum / (vals.length : ℚ))
      else fun _ => none
    ⟨significantVariations ≥ 2, dayAverages, monthlyPattern⟩

def classifyAnomalyType (actual expected : ℚ) : String :=
  if actual > expected * 1.5 then "spike"
  else if actual < expected * 0.5 then "dip"
  else if actual > expected then "positive_outlier"
  else "negative_outlier"

/-- One iteration of the anomaly loop: the examination of index i with the
given window size.  The source's conditions stdDev > 0 and zScore > 2.0
appear here as stdDevSq > 0 and, in squared form, zAbs^2 > 4 * stdDevSq
(equivalently zAbs > 2 when stdDevSq = 0, where the source compares the
raw deviation). -/
def anomalyAt (data : List TrendDataPoint) (windowSize i : Nat) : Option Anomaly :=
  let neighbors :=
    ((List.range' (i - windowSize / 2) (windowSize / 2 * 2 + 1)).filter
      (fun j => j ≠ i)).map fun j => (data.getD j default).value
  let count := neighbors.length
  if count = 0 then none
  else
    let mean := neighbors.sum / (count : ℚ)
    let sumSquaredDiff := (neighbors.map (fun v => (v - mean) * (v - mean))).sum
    let stdDevSq := sumSquaredDiff / ((count : ℚ) - 1)
    let currentValue := (data.getD i default).value
    let zAbs := |currentValue - mean|
    let isAnomaly :=
      if stdDevSq > 0 then zAbs * zAbs > 4 * stdDevSq else zAbs > 2
    if isAnomaly then
      some
        { date := (data.getD i default).date
          value := currentValue
          expected := mean
          deviation := currentValue - mean
          zScoreSq := if stdDevSq > 0 then zAbs * zAbs / stdDevSq else zAbs * zAbs
          type := classifyAnomalyType currentValue mean }
    else none

/-- Sliding-window z-score anomaly detection: every index from windowSize
to len - windowSize - 1 is examined by anomalyAt. -/
def detectAnomalies (data : List TrendDataPoint) : List Anomaly :=
  if data.length < 3 then []
  else
    let windowSize := if data.length < 7 then data.length / 2 else 7
    (List.range' windowSize (data.length - 2 * windowSize)).filterMap
      (anomalyAt data windowSize)

/-- Square of the source's volatility (standard deviation of the
period-over-period percentage changes). -/
def calculateVolatilitySq (data : List TrendDataPoint) : ℚ :=
  if data.length < 2 then 0
  else
    let changes :=
      ((data.zip data.tail).filter (fun pr => pr.1.value ≠ 0)).map
        (fun pr => (pr.2.value - pr.1.value) / pr.1.value * 100)
    if changes.length = 0 then 0
    else
      let mean := changes.sum / (changes.length : ℚ)
      (changes.map (fun c => (c - mean) * (c - mean))).sum / (changes.length : ℚ)

def generateForecast (data : List TrendDataPoint) (days : Nat) : List ForecastPoint :=
  if data.length < 2 then []
  else
    let regression := calculateLinearRegression data
    let baseTime := data.headI.date
    let lastDate := (data.getLastI).date
    let volSq := calculateVolatilitySq data
    (List.range days).map fun i : ℕ =>
      let forecastDate := lastDate + 86400 * ((i : Int) + 1)
      let x := ((forecastDate - baseTime : Int) : ℚ) / 3600 / 24
      { date := forecastDate
        predictedValue := regression.slope * x + regression.intercept
        confidenceIntervalSq := volSq * (1.96 * 1.96) }

/-- Insight generation; the volatility thresholds > 50 and < 10 of the
source are the squared thresholds > 2500 and < 100. -/
def generateInsights (analysis : TrendAnalysis) : List String :=
  (if analysis.trendDirection = "strongly_increasing" then
    ["Strong upward trend detected. Content performance is improving significantly."]
  else if analysis.trendDirection = "increasing" then
    ["Positive trend observed. Content performance is gradually improving."]
  else if analysis.trendDirection = "strongly_decreasing" then
    ["Strong downward trend detected. Immediate attention needed to reverse declining performance."]
  else if analysis.trendDirection = "decreasing" then
    ["Negative trend observed. Consider reviewing content strategy."]
  else if analysis.trendDirection = "stable" then
    ["Performance is stable. Look for optimization opportunities."]
  else [])
  ++ (if analysis.volatilitySq > 2500 then
    ["High volatility detected. Performance is inconsistent - consider standardizing content quality."]
  else if analysis.volatilitySq < 100 then
    ["Low volatility suggests consistent performance. Good content strategy execution."]
  else [])
  ++ (if analysis.seasonalityAnalysis.hasSeasonality then
    ["Seasonal patterns detected. Consider timing content releases based on historical performance."]
  else [])
  ++ (if analysis.anomalies.length > 0 then
    ["Found " ++ toString analysis.anomalies.length
      ++ " anomalies in the data. Investigate unusual spikes or dips for insights."]
  else [])
  ++ (if analysis.totalGrowth > 50 then
    ["Excellent growth performance! Current strategy is highly effective."]
  else if analysis.totalGrowth > 20 then
    ["Good growth performance. Consider scaling successful tactics."]
  else if analysis.totalGrowth < -20 then
    ["Declining performance requires immediate strategic review and optimization."]
  else [])

/-- The result for fewer than 2 points: Status and Points set, every other
field the Go zero value. -/
def insufficientData (n : Nat) : TrendAnalysis :=
  { points := n
    status := "insufficient_data"
    startDate := 0
    endDate := 0
    startValue := 0
    endValue := 0
    minValue := 0
    maxValue := 0
    averageValue := 0
    linearRegression := ⟨0, 0, 0⟩
    trendDirection := ""
    trendStrength := ""
    totalGrowth := 0
    averageGrowthRate := 0
    seasonalityAnalysis := ⟨false, fun _ => none, fun _ => none⟩
    anomalies := []
    volatilitySq := 0
    forecast := []
    insights := []
    dataPoints := [] }

def AnalyzeTrends (data : List TrendDataPoint) : TrendAnalysis :=
  if data.length < 2 then insufficientData data.length
  else
    let sorted := sortByDate data
    let stats := calculateBasicStats sorted
    let regression := calculateLinearRegression sorted
    let base : TrendAnalysis :=
      { points := sorted.length
        status := ""
        startDate := sorted.headI.date
        endDate := sorted.getLastI.date
        startValue := sorted.headI.value
        endValue := sorted.getLastI.value
        minValue := stats.1
        maxValue := stats.2.1
        averageValue := stats.2.2
        linearRegression := regression
        trendDirection := determineTrendDirection regression.slope
        trendStrength := calculateTrendStrength regression.rSquared
        totalGrowth := calculateTotalGrowth sorted.headI.value sorted.getLastI.value
        averageGrowthRate := calculateAverageGrowthRate sorted
        seasonalityAnalysis := detectSeasonality sorted
        anomalies := detectAnomalies sorted
        volatilitySq := calculateVolatilitySq sorted
        forecast := generateForecast sorted 30
        insights := []
        dataPoints := sorted }
    { base with insights := generateInsights base }

/-- The caller's slice after AnalyzeTrends returns: sort.Slice reorders the
shared backing array in place in the >= 2 branch; the early return leaves
it untouched. -/
def analyzeTrendsSliceAfter (data : List TrendDataPoint) : List TrendDataPoint :=
  if data.length < 2 then data else sortByDate data

end Analytics

namespace SEO

/-! ## SEO content analyzer (pkg/seo/analyzer.go, models in seo_models.go) -/

structure HeadingData where
  level : Int
  text : String
deriving DecidableEq

structure LinkData where
  url : String
  anchorText : String
  isDoFollow : Bool
  isInternal : Bool
deriving DecidableEq

structure ImageData where
  url : String
  fileName : String
  altText : String
  title : String
  size : Int
deriving DecidableEq

structure ContentData where
  id : Nat
  title : String
  url : String
  metaDescription : String
  content : String
  primaryKeyword : String
  secondaryKeywords : List String
  headings : List HeadingData
  internalLinks : List LinkData
  externalLinks : List LinkData
  images : List ImageData
  schemaMarkup : String
  canonicalURL : String
  loadTime : ℚ
  mobileResponsive : Bool
deriving DecidableEq

structure TitleAnalysis where
  title : String
  length : Nat
  lengthScore : Int
  lengthStatus : String
  containsPrimaryKeyword : Bool
  keywordPosition : String
  keywordScore : Int
  powerWords : List String
  powerWordScore : ℚ
deriving DecidableEq

structure MetaAnalysis where
  metaDescription : String
  length : Nat
  lengthScore : Int
  lengthStatus : String
  containsPrimaryKeyword : Bool
  keywordScore : Int
  callToAction : Bool
  ctaScore : Int
deriving DecidableEq

structure StructureAnalysis where
  wordCount : Nat
  wordCountScore : Int
  wordCountStatus : String
  headings : List HeadingData
  h1Count : Nat
  h1Score : Int
  h1Status : String
  h2Count : Nat
  h2Score : Int
  h2Status : String
  h3Count : Nat
  avgWordsPerParagraph : ℚ
  paragraphScore : Int
deriving DecidableEq

structure SecondaryKeywordData where
  keyword : String
  count : Nat
  density : ℚ
deriving DecidableEq

structure KeywordAnalysis where
  primaryKeyword : String
  primaryKeywordCount : Nat
  primaryKeywordDensity : ℚ
  primaryKeywordScore : Int
  primaryKeywordStatus : String
  primaryKeywordInIntro : Bool
  introKeywordScore : Int
  secondaryKeywords : List String
  secondaryKeywordData : List SecondaryKeywordData
  lsiKeywords : List String
  lsiScore : ℚ
deriving DecidableEq

structure SentenceLengthAnalysis where
  averageLength : ℚ
  shortestSentence : Nat
  longestSentence : Nat
  shortSentences : Nat
  mediumSentences : Nat
  longSentences : Nat
deriving DecidableEq

structure ReadabilityAnalysis where
  sentenceCount : Nat
  wordCount : Nat
  syllableCount : Nat
  avgWordsPerSentence : ℚ
  avgSyllablesPerWord : ℚ
  fleschScore : ℚ
  fleschKincaidGrade : ℚ
  readingLevel : String
  readabilityScore : Int
  sentenceLengthAnalysis : SentenceLengthAnalysis
  transitionWords : List String
  transitionWordScore : ℚ
deriving DecidableEq

/-- The Structure field of the source is structureLabel here (the word is
a Lean keyword). -/
structure URLAnalysis where
  url : String
  length : Nat
  lengthScore : Int
  lengthStatus : String
  containsKeyword : Bool
  keywordScore : Int
  structureLabel : String
  structureScore : Int
deriving DecidableEq

structure TechnicalAnalysis where
  urlAnalysis : URLAnalysis
  hasSchemaMarkup : Bool
  schemaScore : Int
  hasCanonicalURL : Bool
  canonicalScore : Int
  loadTimeScore : Int
  loadTimeStatus : String
  isMobileResponsive : Bool
  mobileScore : Int
deriving DecidableEq

structure AnchorTextAnalysis where
  anchorTextVariety : Nat
  mostUsedAnchorText : String
  maxAnchorFrequency : Nat
  overOptimizedAnchors : List String
  diversityScore : ℚ
deriving DecidableEq

structure LinkAnalysis where
  internalLinks : List LinkData
  externalLinks : List LinkData
  internalLinkCount : Nat
  externalLinkCount : Nat
  internalLinkScore : Int
  internalLinkStatus : String
  externalLinkScore : Int
  externalLinkStatus : String
  anchorTextAnalysis : AnchorTextAnalysis
deriving DecidableEq

structure ImageAnalysis where
  images : List ImageData
  imageCount : Nat
  imagesWithAltText : Nat
  imagesWithTitle : Nat
  optimizedFileNames : Nat
  altTextScore : ℚ
  titleScore : ℚ
  fileNameScore : ℚ
  imageScore : ℚ
deriving DecidableEq

structure Opportunity where
  type : String
  priority : String
  impact : String
  effort : String
  title : String
  description : String
  action : String
deriving DecidableEq

structure SEOAnalysis where
  contentID : Nat
  title : String
  url : String
  analyzedAt : ℚ
  overallScore : Int
  titleAnalysis : TitleAnalysis
  metaAnalysis : MetaAnalysis
  structureAnalysis : StructureAnalysis
  keywordAnalysis : KeywordAnalysis
  readabilityAnalysis : ReadabilityAnalysis
  technicalAnalysis : TechnicalAnalysis
  linkAnalysis : LinkAnalysis
  imageAnalysis : ImageAnalysis
  recommendations : List String
  opportunities : List Opportunity
deriving DecidableEq

/-- Word count: the regexp \S+ match count equals the number of
whitespace-separated fields. -/
def countWords (text : String) : Nat := (goFields text).length

def sentencePunct (c : Char) : Bool := c = '.' || c = '!' || c = '?'

/-- Sentence count: regexp.Split on runs of [.!?]+ yields one part more
than the number of runs, and the source subtracts one. -/
def countSentences (text : String) : Nat :=
  (splitRuns sentencePunct text.data).length - 1

def isVowelChar (c : Char) : Bool :=
  c = 'a' || c = 'e' || c = 'i' || c = 'o' || c = 'u' || c = 'y'

def countVowelGroups (w : List Char) : Nat :=
  (w.foldl
    (fun (st : Nat × Bool) c =>
      let isV := isVowelChar c
      (if isV && !st.2 then st.1 + 1 else st.1, isV))
    (0, false)).1

/-- Per-word syllable heuristic.  The source removes every character
outside a-z from the original word (so uppercase letters are dropped, not
lowered: ReplaceAllString with [^a-z] runs before ToLower), skips the word
if nothing remains, counts vowel groups, applies the silent trailing-e
rule, and floors at one syllable. -/
def syllablesOfWord (w : List Char) : Nat :=
  let w := w.filter (fun c => 'a' ≤ c && c ≤ 'z')
  if w.isEmpty then 0
  else
    let s := countVowelGroups w
    let s := if w.getLast? = some 'e' && s > 1 then s - 1 else s
    if s = 0 then 1 else s

def countSyllables (text : String) : Nat :=
  ((goFields text).map (fun w => syllablesOfWord w.data)).sum

def getFirstNWords (text : String) (n : Nat) : String :=
  let words := fieldsAux text.data []
  if words.length ≤ n then text
  else String.mk (joinSpace (words.take n))

def powerWordsList : List String :=
  ["ultimate", "complete", "guide", "best", "top", "how", "why", "what", "when",
   "expert", "proven", "essential", "amazing", "incredible", "powerful"]

def analyzeTitleSEO (title primaryKeyword : String) : TitleAnalysis :=
  let length := goLen title
  let lengthScore : Int :=
    if length ≥ 50 && length ≤ 60 then 100
    else if length ≥ 40 && length < 70 then 80
    else if length < 40 then 60
    else 40
  let lengthStatus :=
    if length ≥ 50 && length ≤ 60 then "optimal"
    else if length ≥ 40 && length < 70 then "good"
    else if length < 40 then "too_short"
    else "too_long"
  let titleLower := goToLower title
  let keywordLower := goToLower primaryKeyword
  let kw :
      Bool × String × Int :=
    if keywordLower ≠ "" then
      if goContains titleLower keywordLower then
        let position := goIndex titleLower keywordLower
        if position = 0 then (true, "beginning", 100)
        else if position ≤ (goLen title / 2 : Nat) then (true, "middle", 80)
        else (true, "end", 60)
      else (false, "", 20)
    else (false, "", 50)
  let powerWords := powerWordsList.filter (fun w => goContains titleLower w)
  { title := title
    length := length
    lengthScore := lengthScore
    lengthStatus := lengthStatus
    containsPrimaryKeyword := kw.1
    keywordPosition := kw.2.1
    keywordScore := kw.2.2
    powerWords := powerWords
    powerWordScore := min ((powerWords.length : ℚ) * 20) 100 }

def ctaWordsList : List String :=
  ["learn", "discover", "find out", "get", "download", "read", "explore", "try", "start", "join"]

def analyzeMetaDescription (metaDescription primaryKeyword : String) : MetaAnalysis :=
  let length := goLen metaDescription
  let lengthScore : Int :=
    if length ≥ 150 && length ≤ 160 then 100
    else if length ≥ 120 && length ≤ 170 then 80
    else if length < 120 then 60
    else 40
  let lengthStatus :=
    if length ≥ 150 && length ≤ 160 then "optimal"
    else if length ≥ 120 && length ≤ 170 then "good"
    else if length < 120 then "too_short"
    else "too_long"
  let metaLower := goToLower metaDescription
  let kw : Bool × Int :=
    if primaryKeyword ≠ "" then
      if goContains metaLower (goToLower primaryKeyword) then (true, 100) else (false, 20)
    else (false, 50)
  let callToAction := ctaWordsList.any (fun cta => goContains metaLower cta)
  { metaDescription := metaDescription
    length := length
    lengthScore := lengthScore
    lengthStatus := lengthStatus
    containsPrimaryKeyword := kw.1
    keywordScore := kw.2
    callToAction := callToAction
    ctaScore := if callToAction then 100 else 30 }

def analyzeContentStructure (content : String) (headings : List HeadingData) :
    StructureAnalysis :=
  let wordCount := countWords content
  let wcScore : Int :=
    if wordCount ≥ 1000 && wordCount ≤ 3000 then 100
    else if wordCount ≥ 500 && wordCount < 4000 then 80
    else if wordCount < 500 then 50
    else 70
  let wcStatus :=
    if wordCount ≥ 1000 && wordCount ≤ 3000 then "optimal"
    else if wordCount ≥ 500 && wordCount < 4000 then "good"
    else if wordCount < 500 then "too_short"
    else "very_long"
  let h1Count := (headings.filter (fun h => h.level = 1)).length
  let h2Count := (headings.filter (fun h => h.level = 2)).length
  let h3Count := (headings.filter (fun h => h.level = 3)).length
  let h1 : Int × String :=
    if h1Count = 1 then (100, "optimal")
    else if h1Count = 0 then (20, "missing")
    else (60, "multiple")
  let h2 : Int × String :=
    if h2Count ≥ 2 && h2Count ≤ 8 then (100, "good")
    else if h2Count = 1 then (70, "minimal")
    else if h2Count = 0 then (40, "missing")
    else (80, "many")
  let paragraphCount := goCount content "\n\n" + 1
  let avgWordsPerParagraph : ℚ :=
    if wordCount > 0 then (wordCount : ℚ) / (paragraphCount : ℚ) else 0
  let paragraphScore : Int :=
    if avgWordsPerParagraph ≥ 50 && avgWordsPerParagraph ≤ 100 then 100
    else if avgWordsPerParagraph ≥ 30 && avgWordsPerParagraph ≤ 150 then 80
    else 60
  { wordCount := wordCount
    wordCountScore := wcScore
    wordCountStatus := wcStatus
    headings := headings
    h1Count := h1Count
    h1Score := h1.1
    h1Status := h1.2
    h2Count := h2Count
    h2Score := h2.1
    h2Status := h2.2
    h3Count := h3Count
    avgWordsPerParagraph := avgWordsPerParagraph
    paragraphScore := paragraphScore }

def lsiSeoList : List String :=
  ["search engine", "optimization", "ranking", "keywords", "google",
   "content marketing", "backlinks", "meta tags"]

def identifyLSIKeywords (content primaryKeyword : String) : List String :=
  let primaryLower := goToLower primaryKeyword
  let contentLower := goToLower content
  if goContains primaryLower "seo" then
    lsiSeoList.filter (fun lsi => goContains contentLower lsi)
  else []

def analyzeKeywordOptimization (content : ContentData) : KeywordAnalysis :=
  let base : KeywordAnalysis :=
    { primaryKeyword := content.primaryKeyword
      primaryKeywordCount := 0
      primaryKeywordDensity := 0
      primaryKeywordScore := 0
      primaryKeywordStatus := ""
      primaryKeywordInIntro := false
      introKeywordScore := 0
      secondaryKeywords := content.secondaryKeywords
      secondaryKeywordData := []
      lsiKeywords := []
      lsiScore := 0 }
  let wordCount := countWords content.content
  if wordCount = 0 then base
  else
    let contentLower := goToLower content.content
    let pk :
        Nat × ℚ × Int × String × Bool × Int :=
      if content.primaryKeyword ≠ "" then
        let pkLower := goToLower content.primaryKeyword
        let count := goCount contentLower pkLower
        let density := (count : ℚ) / (wordCount : ℚ) * 100
        let score : Int :=
          if density ≥ 1 && density ≤ 2 then 100
          else if density ≥ 0.5 && density < 3 then 80
          else if density < 0.5 then 50
          else 30
        let status :=
          if density ≥ 1 && density ≤ 2 then "optimal"
          else if density ≥ 0.5 && density < 3 then "good"
          else if density < 0.5 then "too_low"
          else "too_high"
        let inIntro := goContains (goToLower (getFirstNWords content.content 100)) pkLower
        (count, density, score, status, inIntro, if inIntro then 100 else 40)
      else (0, 0, 0, "", false, 0)
    let secondaryData :=
      (content.secondaryKeywords.filter (fun sk => sk ≠ "")).map fun sk =>
        let count := goCount contentLower (goToLower sk)
        ({ keyword := sk
           count := count
           density := (count : ℚ) / (wordCount : ℚ) * 100 } : SecondaryKeywordData)
    let lsiKeywords := identifyLSIKeywords content.content content.primaryKeyword
    { base with
      primaryKeywordCount := pk.1
      primaryKeywordDensity := pk.2.1
      primaryKeywordScore := pk.2.2.1
      primaryKeywordStatus := pk.2.2.2.1
      primaryKeywordInIntro := pk.2.2.2.2.1
      introKeywordScore := pk.2.2.2.2.2
      secondaryKeywordData := secondaryData
      lsiKeywords := lsiKeywords
      lsiScore := min ((lsiKeywords.length : ℚ) * 10) 100 }

def analyzeSentenceLengths (content : String) : SentenceLengthAnalysis :=
  let sentences := splitRuns sentencePunct content.data
  let lengths :=
    (sentences.map (fun s => (goFields (goTrim (String.mk s))).length)).filter (fun n => n > 0)
  if lengths.length = 0 then ⟨0, 0, 0, 0, 0, 0⟩
  else
    { averageLength := (lengths.sum : ℚ) / (lengths.length : ℚ)
      shortestSentence := lengths.foldl (fun m x => if m = 0 || x < m then x else m) 0
      longestSentence := lengths.foldl (fun m x => if x > m then x else m) 0
      shortSentences := lengths.countP (fun n => n ≤ 10)
      mediumSentences := lengths.countP (fun n => n > 10 && n ≤ 20)
      longSentences := lengths.countP (fun n => n > 20) }

def transitionWordsList : List String :=
  ["however", "therefore", "furthermore", "moreover", "additionally", "consequently",
   "meanwhile", "nevertheless", "similarly", "in contrast", "on the other hand",
   "in addition", "for example", "for instance"]

def analyzeReadability (content : String) : ReadabilityAnalysis :=
  let sentences := countSentences content
  let words := countWords content
  let syllables := countSyllables content
  if sentences = 0 || words = 0 then
    { sentenceCount := 0, wordCount := 0, syllableCount := 0
      avgWordsPerSentence := 0, avgSyllablesPerWord := 0
      fleschScore := 0, fleschKincaidGrade := 0
      readingLevel := "", readabilityScore := 0
      sentenceLengthAnalysis := ⟨0, 0, 0, 0, 0, 0⟩
      transitionWords := [], transitionWordScore := 0 }
  else
    let avgWordsPerSentence := (words : ℚ) / (sentences : ℚ)
    let avgSyllablesPerWord := (syllables : ℚ) / (words : ℚ)
    let fleschRaw := 206.835 - (1.015 * avgWordsPerSentence) - (84.6 * avgSyllablesPerWord)
    let fleschScore := max 0 (min 100 fleschRaw)
    let rl : String × Int :=
      if fleschScore ≥ 90 then ("very_easy", 100)
      else if fleschScore ≥ 80 then ("easy", 90)
      else if fleschScore ≥ 70 then ("fairly_easy", 80)
      else if fleschScore ≥ 60 then ("standard", 70)
      else if fleschScore ≥ 50 then ("fairly_difficult", 60)
      else if fleschScore ≥ 30 then ("difficult", 40)
      else ("very_difficult", 20)
    let contentLower := goToLower content
    let transitionWords := transitionWordsList.filter (fun w => goContains contentLower w)
    { sentenceCount := sentences
      wordCount := words
      syllableCount := syllables
      avgWordsPerSentence := avgWordsPerSentence
      avgSyllablesPerWord := avgSyllablesPerWord
      fleschScore := fleschScore
      fleschKincaidGrade :=
        (0.39 * avgWordsPerSentence) + (11.8 * avgSyllablesPerWord) - 15.59
      readingLevel := rl.1
      readabilityScore := rl.2
      sentenceLengthAnalysis := analyzeSentenceLengths content
      transitionWords := transitionWords
      transitionWordScore := min ((transitionWords.length : ℚ) * 15) 100 }

def isSlugChar (c : Char) : Bool :=
  ('a' ≤ c && c ≤ 'z') || ('0' ≤ c && c ≤ '9') || c = '-'

/-- The anchored URL regexp of the source spelled out structurally:
http or https scheme, nonempty host without a slash, a slash, a nonempty
run of [a-z0-9-], and an optional final slash. -/
def matchCleanURL (s : String) : Bool :=
  let l := s.data
  let afterScheme : Option (List Char) :=
    if "https://".data.isPrefixOf l then some (l.drop 8)
    else if "http://".data.isPrefixOf l then some (l.drop 7)
    else none
  match afterScheme with
  | none => false
  | some r =>
      let host := r.takeWhile (fun c => c ≠ '/')
      let rest := r.drop host.length
      if host.isEmpty then false
      else
        match rest with
        | [] => false
        | c :: r2 =>
            if c = '/' then
              let slug := r2.takeWhile isSlugChar
              let r3 := r2.drop slug.length
              if slug.isEmpty then false
              else decide (r3 = []) || decide (r3 = ['/'])
            else false

def analyzeURL (url primaryKeyword : String) : URLAnalysis :=
  let length := goLen url
  let ls : Int × String :=
    if length ≤ 75 then (100, "optimal")
    else if length ≤ 100 then (80, "good")
    else (60, "too_long")
  let kw : Bool × Int :=
    if primaryKeyword ≠ "" then
      let urlLower := goToLower url
      let keywordLower := goToLower primaryKeyword
      let keywordSlug := String.mk (keywordLower.data.map (fun c => if c = ' ' then '-' else c))
      if goContains urlLower keywordSlug || goContains urlLower keywordLower then (true, 100)
      else (false, 30)
    else (false, 0)
  let st : Int × String :=
    if matchCleanURL (goToLower url) then (100, "clean") else (70, "complex")
  { url := url
    length := length
    lengthScore := ls.1
    lengthStatus := ls.2
    containsKeyword := kw.1
    keywordScore := kw.2
    structureLabel := st.2
    structureScore := st.1 }

def analyzeTechnicalSEO (content : ContentData) : TechnicalAnalysis :=
  let hasSchema := content.schemaMarkup ≠ ""
  let hasCanonical := content.canonicalURL ≠ ""
  let lt : Int × String :=
    if content.loadTime > 0 then
      if content.loadTime ≤ 2 then (100, "excellent")
      else if content.loadTime ≤ 3 then (80, "good")
      else if content.loadTime ≤ 5 then (60, "fair")
      else (30, "poor")
    else (50, "")
  { urlAnalysis := analyzeURL content.url content.primaryKeyword
    hasSchemaMarkup := hasSchema
    schemaScore := if hasSchema then 100 else 0
    hasCanonicalURL := hasCanonical
    canonicalScore := if hasCanonical then 100 else 50
    loadTimeScore := lt.1
    loadTimeStatus := lt.2
    isMobileResponsive := content.mobileResponsive
    mobileScore := if content.mobileResponsive then 100 else 0 }

/-- Anchor-text statistics.  The source accumulates counts in a Go map and
iterates it to find the most frequent anchor (strict improvement, so ties
are resolved by the randomized iteration order) and to collect the anchors
above 30%; this def iterates anchors in first-appearance order, one
deterministic resolution of that order, which is faithful for the
order-insensitive counts and the diversity score.  analyzeAnchorTextsIter
below makes the iteration order an explicit parameter (any permutation of
the key set); the determinism claim quantifies over it. -/
def analyzeAnchorTexts (links : List LinkData) : AnchorTextAnalysis :=
  if links.length = 0 then ⟨0, "", 0, [], 0⟩
  else
    let anchors :=
      ((links.map (fun l => goToLower (goTrim l.anchorText))).filter (fun a => a ≠ ""))
    let keys := dedupFirst anchors
    let totalLinks := links.length
    let freq : String → Nat := fun a => (anchors.count a * 100) / totalLinks
    let best :=
      keys.foldl (fun (st : Nat × String) a => if freq a > st.1 then (freq a, a) else st) (0, "")
    { anchorTextVariety := keys.length
      mostUsedAnchorText := best.2
      maxAnchorFrequency := best.1
      overOptimizedAnchors := keys.filter (fun a => freq a > 30)
      diversityScore :=
        if totalLinks > 0 then min ((keys.length : ℚ) / (totalLinks : ℚ) * 100) 100 else 0 }

def analyzeLinkStructure (internalLinks externalLinks : List LinkData) : LinkAnalysis :=
  let ic := internalLinks.length
  let ec := externalLinks.length
  let internal : Int × String :=
    if ic ≥ 3 && ic ≤ 10 then (100, "optimal")
    else if ic ≥ 1 && ic ≤ 15 then (80, "good")
    else if ic = 0 then (20, "missing")
    else (60, "too_many")
  let external : Int × String :=
    if ec ≥ 2 && ec ≤ 5 then (100, "optimal")
    else if ec ≥ 1 && ec ≤ 8 then (80, "good")
    else if ec = 0 then (40, "none")
    else (60, "too_many")
  { internalLinks := internalLinks
    externalLinks := externalLinks
    internalLinkCount := ic
    externalLinkCount := ec
    internalLinkScore := internal.1
    internalLinkStatus := internal.2
    externalLinkScore := external.1
    externalLinkStatus := external.2
    anchorTextAnalysis := analyzeAnchorTexts (internalLinks ++ externalLinks) }

def isDigitChar (c : Char) : Bool := '0' ≤ c && c ≤ '9'

def lastIdxOf (c : Char) (l : List Char) : Option Nat :=
  (l.reverse.indexOf? c).map (fun k => l.length - 1 - k)

def isOptimizedFileName (fileName : String) : Bool :=
  let f := (goToLower fileName).data
  let f :=
    match lastIdxOf '.' f with
    | some i => if i > 0 then f.take i else f
    | none => f
  let generic :=
    ["img", "image", "picture", "photo"].any fun p =>
      p.data.isPrefixOf f && (f.drop p.data.length).all isDigitChar
  if generic then false
  else if f.contains '_' || f.contains ' ' then false
  else if utf8Len f < 3 || !(f.any (fun c => 'a' ≤ c && c ≤ 'z')) then false
  else true

def analyzeImageOptimization (images : List ImageData) : ImageAnalysis :=
  if images.length = 0 then
    { images := images, imageCount := 0
      imagesWithAltText := 0, imagesWithTitle := 0, optimizedFileNames := 0
      altTextScore := 0, titleScore := 0, fileNameScore := 0, imageScore := 50 }
  else
    let altTextCount := (images.filter (fun i => i.altText ≠ "")).length
    let titleCount := (images.filter (fun i => i.title ≠ "")).length
    let optimizedFileNames := (images.filter (fun i => isOptimizedFileName i.fileName)).length
    let n : ℚ := images.length
    let altTextScore := (altTextCount : ℚ) / n * 100
    let titleScore := (titleCount : ℚ) / n * 100
    let fileNameScore := (optimizedFileNames : ℚ) / n * 100
    { images := images
      imageCount := images.length
      imagesWithAltText := altTextCount
      imagesWithTitle := titleCount
      optimizedFileNames := optimizedFileNames
      altTextScore := altTextScore
      titleScore := titleScore
      fileNameScore := fileNameScore
      imageScore := altTextScore * 0.5 + titleScore * 0.2 + fileNameScore * 0.3 }

def calculateOverallSEOScore (analysis : SEOAnalysis) : Int :=
  let titleScore :=
    ((analysis.titleAnalysis.lengthScore : ℚ) + (analysis.titleAnalysis.keywordScore : ℚ)) / 2
  let metaScore :=
    ((analysis.metaAnalysis.lengthScore : ℚ) + (analysis.metaAnalysis.keywordScore : ℚ)) / 2
  let structureScore :=
    ((analysis.structureAnalysis.wordCountScore : ℚ) + (analysis.structureAnalysis.h1Score : ℚ)
      + (analysis.structureAnalysis.h2Score : ℚ)) / 3
  let keywordScore := (analysis.keywordAnalysis.primaryKeywordScore : ℚ)
  let readabilityScore := (analysis.readabilityAnalysis.readabilityScore : ℚ)
  let technicalScore :=
    ((analysis.technicalAnalysis.schemaScore : ℚ) + (analysis.technicalAnalysis.canonicalScore : ℚ)
      + (analysis.technicalAnalysis.loadTimeScore : ℚ)) / 3
  let linkScore :=
    ((analysis.linkAnalysis.internalLinkScore : ℚ) + (analysis.linkAnalysis.externalLinkScore : ℚ)) / 2
  let imageScore := analysis.imageAnalysis.imageScore
  let totalScore :=
    titleScore * 0.15 + metaScore * 0.10 + structureScore * 0.20 + keywordScore * 0.20
      + readabilityScore * 0.15 + technicalScore * 0.10 + linkScore * 0.05 + imageScore * 0.05
  let weights : ℚ := 0.15 + 0.10 + 0.20 + 0.20 + 0.15 + 0.10 + 0.05 + 0.05
  if weights > 0 then ratTrunc (min (totalScore / weights) 100) else 0

def generateRecommendations (analysis : SEOAnalysis) : List String :=
  (if analysis.titleAnalysis.lengthStatus = "too_short" then
    ["Expand your title to 50-60 characters for optimal search engine display"]
  else if analysis.titleAnalysis.lengthStatus = "too_long" then
    ["Shorten your title to under 60 characters to avoid truncation in search results"]
  else [])
  ++ (if !analysis.titleAnalysis.containsPrimaryKeyword then
    ["Include your primary keyword in the title, preferably near the beginning"]
  else [])
  ++ (if analysis.metaAnalysis.lengthStatus = "too_short" then
    ["Expand your meta description to 150-160 characters for better search result display"]
  else if analysis.metaAnalysis.lengthStatus = "too_long" then
    ["Shorten your meta description to under 160 characters"]
  else [])
  ++ (if !analysis.metaAnalysis.callToAction then
    ["Add a compelling call-to-action to your meta description"]
  else [])
  ++ (if analysis.structureAnalysis.h1Status = "missing" then
    ["Add an H1 heading to your content for better structure"]
  else if analysis.structureAnalysis.h1Status = "multiple" then
    ["Use only one H1 heading per page"]
  else [])
  ++ (if analysis.structureAnalysis.h2Status = "missing" then
    ["Add H2 subheadings to improve content structure and readability"]
  else [])
  ++ (if analysis.keywordAnalysis.primaryKeywordStatus = "too_low" then
    ["Increase primary keyword usage to 1-2% density"]
  else if analysis.keywordAnalysis.primaryKeywordStatus = "too_high" then
    ["Reduce primary keyword usage to avoid over-optimization (aim for 1-2% density)"]
  else [])
  ++ (if analysis.readabilityAnalysis.fleschScore < 60 then
    ["Improve readability by using shorter sentences and simpler words"]
  else [])
  ++ (if !analysis.technicalAnalysis.hasSchemaMarkup then
    ["Add schema markup to help search engines understand your content better"]
  else [])
  ++ (if analysis.linkAnalysis.internalLinkStatus = "missing" then
    ["Add 3-5 internal links to related content on your website"]
  else [])
  ++ (if analysis.linkAnalysis.externalLinkStatus = "none" then
    ["Include 2-3 links to high-quality external sources for credibility"]
  else [])
  ++ (if analysis.imageAnalysis.altTextScore < 80 then
    ["Add descriptive alt text to all images for better accessibility and SEO"]
  else [])

def identifyOpportunities (analysis : SEOAnalysis) : List Opportunity :=
  (if !analysis.titleAnalysis.containsPrimaryKeyword then
    [{ type := "title_optimization", priority := "high", impact := "high", effort := "low"
       title := "Add primary keyword to title"
       description := "Including your primary keyword in the title can significantly improve rankings"
       action := "Edit the title to include your primary keyword, preferably at the beginning" }]
  else [])
  ++ (if analysis.keywordAnalysis.primaryKeywordDensity < 0.5 then
    [{ type := "keyword_optimization", priority := "high", impact := "medium", effort := "medium"
       title := "Increase keyword density"
       description := "Your primary keyword density is too low, which may affect rankings"
       action := "Naturally incorporate your primary keyword 2-3 more times in the content" }]
  else [])
  ++ (if analysis.structureAnalysis.h2Count < 2 then
    [{ type := "content_structure", priority := "medium", impact := "medium", effort := "low"
       title := "Add more H2 subheadings"
       description := "Proper heading structure improves both SEO and user experience"
       action := "Break your content into logical sections with descriptive H2 headings" }]
  else [])
  ++ (if analysis.linkAnalysis.internalLinks.length < 3 then
    [{ type := "internal_linking", priority := "medium", impact := "medium", effort := "low"
       title := "Add internal links"
       description := "Internal links help search engines understand your site structure and keep users engaged"
       action := "Link to 3-5 related articles or pages on your website" }]
  else [])
  ++ (if analysis.imageAnalysis.altTextScore < 100 then
    [{ type := "image_optimization", priority := "low", impact := "low", effort := "low"
       title := "Optimize image alt text"
       description := "Alt text helps search engines understand your images and improves accessibility"
       action := "Add descriptive alt text to all images, including relevant keywords where appropriate" }]
  else [])
  ++ (if !analysis.technicalAnalysis.hasSchemaMarkup then
    [{ type := "schema_markup", priority := "low", impact := "medium", effort := "high"
       title := "Add schema markup"
       description := "Schema markup helps search engines better understand and display your content"
       action := "Implement appropriate schema markup (Article, BlogPosting, etc.) for your content type" }]
  else [])

/-- AnalyzeContent stamps the result with time.Now(); the model passes the
current time now (epoch seconds) explicitly, its only use. -/
def AnalyzeContent (now : ℚ) (content : ContentData) : SEOAnalysis :=
  let base : SEOAnalysis :=
    { contentID := content.id
      title := content.title
      url := content.url
      analyzedAt := now
      overallScore := 0
      titleAnalysis := analyzeTitleSEO content.title content.primaryKeyword
      metaAnalysis := analyzeMetaDescription content.metaDescription content.primaryKeyword
      structureAnalysis := analyzeContentStructure content.content content.headings
      keywordAnalysis := analyzeKeywordOptimization content
      readabilityAnalysis := analyzeReadability content.content
      technicalAnalysis := analyzeTechnicalSEO content
      linkAnalysis := analyzeLinkStructure content.internalLinks content.externalLinks
      imageAnalysis := analyzeImageOptimization content.images
      recommendations := []
      opportunities := [] }
  { base with
    overallScore := calculateOverallSEOScore base
    recommendations := generateRecommendations base
    opportunities := identifyOpportunities base }

/-- The strings inserted into the source's anchor-count map: lowered,
trimmed, nonempty anchor texts. -/
def anchorStrings (links : List LinkData) : List String :=
  (links.map (fun l => goToLower (goTrim l.anchorText))).filter (fun a => a ≠ "")

/-- Key set of the anchor-count map, in first-appearance order; Go's
randomized range visits these keys in an arbitrary permutation of this
list. -/
def anchorKeys (links : List LinkData) : List String :=
  dedupFirst (anchorStrings links)

/-- Percentage frequency of one anchor: (count * 100) / totalLinks. -/
def anchorFreq (links : List LinkData) (a : String) : Nat :=
  ((anchorStrings links).count a * 100) / links.length

/-- The maxFrequency / MostUsedAnchorText accumulator of the source's
range loop, run over the map keys in the given order (strict improvement,
so a tie keeps the earlier key). -/
def anchorBest (freq : String → Nat) (keys : List String) : Nat × String :=
  keys.foldl (fun (st : Nat × String) a => if freq a > st.1 then (freq a, a) else st) (0, "")

/-- analyzeAnchorTexts with the map iteration order made explicit: keys is
the order in which Go's randomized range visits the anchor-count map, any
permutation of anchorKeys links.  MostUsedAnchorText (tie-breaking) and
the order of OverOptimizedAnchors depend on that order; every other field
does not.  analyzeAnchorTexts is definitionally the instance at the
canonical first-appearance order anchorKeys links. -/
def analyzeAnchorTextsIter (keys : List String) (links : List LinkData) : AnchorTextAnalysis :=
  if links.length = 0 then ⟨0, "", 0, [], 0⟩
  else
    let totalLinks := links.length
    let best := anchorBest (anchorFreq links) keys
    { anchorTextVariety := keys.length
      mostUsedAnchorText := best.2
      maxAnchorFrequency := best.1
      overOptimizedAnchors := keys.filter (fun a => anchorFreq links a > 30)
      diversityScore :=
        if totalLinks > 0 then min ((keys.length : ℚ) / (totalLinks : ℚ) * 100) 100 else 0 }

/-- analyzeLinkStructure with the anchor-text analysis passed in instead of
recomputed at the canonical order. -/
def analyzeLinkStructureATA (ata : AnchorTextAnalysis)
    (internalLinks externalLinks : List LinkData) : LinkAnalysis :=
  let ic := internalLinks.length
  let ec := externalLinks.length
  let internal : Int × String :=
    if ic ≥ 3 && ic ≤ 10 then (100, "optimal")
    else if ic ≥ 1 && ic ≤ 15 then (80, "good")
    else if ic = 0 then (20, "missing")
    else (60, "too_many")
  let external : Int × String :=
    if ec ≥ 2 && ec ≤ 5 then (100, "optimal")
    else if ec ≥ 1 && ec ≤ 8 then (80, "good")
    else if ec = 0 then (40, "none")
    else (60, "too_many")
  { internalLinks := internalLinks
    externalLinks := externalLinks
    internalLinkCount := ic
    externalLinkCount := ec
    internalLinkScore := internal.1
    internalLinkStatus := internal.2
    externalLinkScore := external.1
    externalLinkStatus := external.2
    anchorTextAnalysis := ata }

/-- AnalyzeContent with the anchor-text analysis passed in. -/
def AnalyzeContentATA (now : ℚ) (ata : AnchorTextAnalysis) (content : ContentData) : SEOAnalysis :=
  let base : SEOAnalysis :=
    { contentID := content.id
      title := content.title
      url := content.url
      analyzedAt := now
      overallScore := 0
      titleAnalysis := analyzeTitleSEO content.title content.primaryKeyword
      metaAnalysis := analyzeMetaDescription content.metaDescription content.primaryKeyword
      structureAnalysis := analyzeContentStructure content.content content.headings
      keywordAnalysis := analyzeKeywordOptimization content
      readabilityAnalysis := analyzeReadability content.content
      technicalAnalysis := analyzeTechnicalSEO content
      linkAnalysis := analyzeLinkStructureATA ata content.internalLinks content.externalLinks
      imageAnalysis := analyzeImageOptimization content.images
      recommendations := []
      opportunities := [] }
  { base with
    overallScore := calculateOverallSEOScore base
    recommendations := generateRecommendations base
    opportunities := identifyOpportunities base }

/-- AnalyzeContent with both hidden inputs explicit: the clock reading and
the anchor-map iteration order. -/
def AnalyzeContentIter (now : ℚ) (keys : List String) (content : ContentData) : SEOAnalysis :=
  AnalyzeContentATA now
    (analyzeAnchorTextsIter keys (content.internalLinks ++ content.externalLinks)) content

/-- Erase the two iteration-order-dependent anchor fields. -/
def scrubATA (a : AnchorTextAnalysis) : AnchorTextAnalysis :=
  { a with mostUsedAnchorText := "", overOptimizedAnchors := [] }

/-- Erase the clock stamp and the iteration-order-dependent anchor
fields. -/
def scrubAnchors (a : SEOAnalysis) : SEOAnalysis :=
  { a with
    analyzedAt := 0
    linkAnalysis := { a.linkAnalysis with
      anchorTextAnalysis := scrubATA a.linkAnalysis.anchorTextAnalysis } }

end SEO

/-! ## Claim C3: ROI division guards -/

open Analytics in
/-- Claim C3: for every ROI input, CalculateContentROI returns
ROIPercentage = 0 whenever total investment is 0 (no division fault),
PaybackPeriod = -1 whenever total revenue <= 0, and, when investment > 0,
ROIPercentage = (total revenue - total investment)/total investment * 100. -/
theorem roi_zero_guards (m : ContentROIMetrics) :
    ((CalculateContentROI m).totalInvestment = 0 → (CalculateContentROI m).roiPercentage = 0) ∧
    ((CalculateContentROI m).totalRevenue ≤ 0 → (CalculateContentROI m).paybackPeriod = -1) ∧
    (0 < (CalculateContentROI m).totalInvestment →
      (CalculateContentROI m).roiPercentage =
        ((CalculateContentROI m).totalRevenue - (CalculateContentROI m).totalInvestment)
          / (CalculateContentROI m).totalInvestment * 100) := by
  refine ⟨fun h0 => ?_, fun hr => ?_, fun hp => ?_⟩
  · simp only [CalculateContentROI] at h0 ⊢
    rw [if_neg (by rw [h0]; exact lt_irrefl 0)]
  · simp only [CalculateContentROI, calculatePaybackPeriod] at hr ⊢
    rw [if_pos hr]
  · simp only [CalculateContentROI] at hp ⊢
    rw [if_pos hp]

open Analytics in
def roiMetricsZeroInv : ContentROIMetrics :=
  { contentID := 1, title := "", publishedAt := 0, period := 30
    investment := ⟨0, 0, 0, 0, 0, 0⟩
    directConversions := []
    attributedConversions := [], attributionModel := "linear", leads := 0, newCustomers := 0
    averageCLV := 0, engagement := ⟨0, 0, 0, 0, 0, 0, 0, 0⟩
    engagementValue := ⟨0, 0, 0, 0, 0⟩, brandMetrics := ⟨0, 0, 0, 0, 0⟩ }

open Analytics in
def roiMetricsPosInv : ContentROIMetrics :=
  { roiMetricsZeroInv with
    investment := ⟨100, 0, 0, 0, 0, 0⟩
    directConversions := [⟨1, 300, 0, ""⟩] }

open Analytics in
/-- Concrete instances of roi_zero_guards: zero investment and no revenue
give ROI 0 and payback -1; investment 100 against revenue 300 gives the
ROI formula value. -/
theorem roi_zero_guards_witness :
    (CalculateContentROI roiMetricsZeroInv).roiPercentage = 0 ∧
    (CalculateContentROI roiMetricsZeroInv).paybackPeriod = -1 ∧
    (CalculateContentROI roiMetricsPosInv).roiPercentage =
      ((CalculateContentROI roiMetricsPosInv).totalRevenue
        - (CalculateContentROI roiMetricsPosInv).totalInvestment)
        / (CalculateContentROI roiMetricsPosInv).totalInvestment * 100 :=
  ⟨(roi_zero_guards roiMetricsZeroInv).1 (by
      norm_num [CalculateContentROI, calculateTotalInvestment, roiMetricsZeroInv]),
   (roi_zero_guards roiMetricsZeroInv).2.1 (by
      norm_num [CalculateContentROI, calculateDirectRevenue, calculateIndirectRevenue,
        roiMetricsZeroInv]),
   (roi_zero_guards roiMetricsPosInv).2.2 (by
      norm_num [CalculateContentROI, calculateTotalInvestment, roiMetricsPosInv,
        roiMetricsZeroInv])⟩

/-! ## Claim C7: position-based attribution -/

open Analytics in
/-- Claim C7: under the position_based model each conversion contributes
revenue times the position weight, and the weight is 1 for a single-touch
journey, 0.4 for the first of several touches, 0.2 for the last, and
0.4/(total-2) for each middle touch (0.4/0.4/0.2 at exactly 3 touches). -/
theorem position_based_attribution (convs : List AttributedConversion) (pos total : Int) :
    calculateIndirectRevenue convs "position_based" =
      (convs.map fun c =>
        c.revenue * calculatePositionBasedWeight c.touchPosition c.totalTouches).sum ∧
    (total = 1 → calculatePositionBasedWeight pos total = 1) ∧
    (2 ≤ total → pos = 1 → calculatePositionBasedWeight pos total = 0.4) ∧
    (2 ≤ total → pos = total → calculatePositionBasedWeight pos total = 0.2) ∧
    (1 < pos → pos < total → calculatePositionBasedWeight pos total = 0.4 / ((total : ℚ) - 2)) := by
  refine ⟨?_, fun h1 => ?_, fun h2 hp => ?_, fun h2 hp => ?_, fun hlo hhi => ?_⟩
  · rfl
  · simp [calculatePositionBasedWeight, h1]
  · have : total ≠ 1 := by omega
    simp [calculatePositionBasedWeight, this, hp]
  · have ht1 : total ≠ 1 := by omega
    have hp1 : pos ≠ 1 := by omega
    simp [calculatePositionBasedWeight, ht1, hp1, hp]
  · have ht1 : total ≠ 1 := by omega
    have hp1 : pos ≠ 1 := by omega
    have hpt : pos ≠ total := by omega
    have hm : total - 2 > 0 := by omega
    simp only [calculatePositionBasedWeight, if_neg ht1, if_neg hp1, if_neg hpt, if_pos hm]
    push_cast
    ring_nf

open Analytics in
/-- Concrete instances of position_based_attribution: the weights at a
3-touch journey are 0.4, 0.4, 0.2, and a single touch gets weight 1. -/
theorem position_based_attribution_witness :
    calculatePositionBasedWeight 5 1 = 1 ∧
    calculatePositionBasedWeight 1 3 = 0.4 ∧
    calculatePositionBasedWeight 2 3 = 0.4 / ((3 : ℚ) - 2) ∧
    calculatePositionBasedWeight 3 3 = 0.2 :=
  ⟨(position_based_attribution [] 5 1).2.1 rfl,
   (position_based_attribution [] 1 3).2.2.1 (by norm_num) rfl,
   (position_based_attribution [] 2 3).2.2.2.2 (by norm_num) (by norm_num),
   (position_based_attribution [] 3 3).2.2.2.1 (by norm_num) rfl⟩

/-! ## Claim C4: insufficient data status -/

open Analytics in
/-- Claim C4: with fewer than 2 points AnalyzeTrends returns the
distinguished insufficient_data status with Points equal to the series
length and a zero regression; with at least 2 points the status is never
insufficient_data. -/
theorem trend_insufficient_data (data : List TrendDataPoint) :
    (data.length < 2 →
      (AnalyzeTrends data).status = "insufficient_data" ∧
      (AnalyzeTrends data).points = data.length ∧
      (AnalyzeTrends data).linearRegression = ⟨0, 0, 0⟩) ∧
    (2 ≤ data.length → (AnalyzeTrends data).status ≠ "insufficient_data") := by
  constructor
  · intro h
    simp [AnalyzeTrends, if_pos h, insufficientData]
  · intro h
    simp only [AnalyzeTrends, if_neg (by omega : ¬ data.length < 2)]
    decide

open Analytics in
/-- Concrete instances of trend_insufficient_data at a 1-point and a
2-point series. -/
theorem trend_insufficient_data_witness :
    (AnalyzeTrends [⟨0, 3⟩]).status = "insufficient_data" ∧
    (AnalyzeTrends [⟨0, 3⟩]).points = 1 ∧
    (AnalyzeTrends [⟨0, 3⟩, ⟨86400, 5⟩]).status ≠ "insufficient_data" :=
  ⟨((trend_insufficient_data [⟨0, 3⟩]).1 (by norm_num)).1,
   ((trend_insufficient_data [⟨0, 3⟩]).1 (by norm_num)).2.1,
   (trend_insufficient_data [⟨0, 3⟩, ⟨86400, 5⟩]).2 (by norm_num)⟩

/-! ## Claim C5: behavioural division guard -/

open Analytics in
def claim5Behavior : Behavior :=
  ⟨10, 0, 0, 0, 0, 0, 0, false, false, false, 0, none⟩

open Analytics in
/-- Claim C5 counterexample: the average-pages-per-session division is not
guarded against a zero visit count.  A behaviour record with 10 page views
and 0 visits divides by zero (IEEE +Inf) and the depth-of-visit component
awards its maximum 25 points, not a minimum, so website-activity scoring
returns 25 rather than 0. -/
theorem behavior_divzero_counterexample :
    scoreWebsiteActivity claim5Behavior = 25 ∧ depthOfVisitScore claim5Behavior = 25 := by
  constructor <;>
    norm_num [scoreWebsiteActivity, depthOfVisitScore, claim5Behavior, min_def]

open Analytics in
/-- Claim C5 amended: the division is unguarded but faultless.  With zero
page views the depth-of-visit component contributes its minimum 0 (the 0/0
case is NaN in Go, which takes no branch); with zero visits and positive
page views the IEEE quotient +Inf takes the top branch and contributes the
maximum 25. -/
theorem behavior_divzero_amended (b : Behavior) :
    (b.pageViews = 0 → depthOfVisitScore b = 0) ∧
    (b.visitCount = 0 → 0 < b.pageViews → depthOfVisitScore b = 25) ∧
    (b.visitCount = 0 → b.pageViews ≤ 0 → depthOfVisitScore b = 0) := by
  refine ⟨fun h0 => ?_, fun hv hp => ?_, fun hv hp => ?_⟩
  · unfold depthOfVisitScore
    rw [h0]
    split
    · simp
    · push_cast
      rw [zero_div]
      norm_num
  · unfold depthOfVisitScore
    rw [if_pos hv, if_pos hp]
  · unfold depthOfVisitScore
    rw [if_pos hv, if_neg (by omega : ¬ b.pageViews > 0)]

open Analytics in
/-- Concrete instances of behavior_divzero_amended: zero page views give
depth 0; zero visits with positive page views give depth 25. -/
theorem behavior_divzero_amended_witness :
    depthOfVisitScore ⟨0, 0, 0, 0, 0, 0, 0, false, false, false, 0, none⟩ = 0 ∧
    depthOfVisitScore claim5Behavior = 25 :=
  ⟨(behavior_divzero_amended _).1 rfl,
   (behavior_divzero_amended claim5Behavior).2.1 rfl (by decide)⟩

/-! ## Claim C6: determinism -/

open Analytics in
def claim6Profile : LeadProfile :=
  { demographics := ⟨"", "", "", ""⟩
    behavior := ⟨0, 0, 0, 0, 0, 0, 0, false, false, false, 0, some 0⟩
    company := ⟨"", "", "", "", []⟩
    intent := ⟨"", [], 0, 0⟩ }

open Analytics in
/-- Claim C6 counterexample: CalculateLeadScore depends on the wall clock
through scoreRecency (time.Since).  The same profile, last active at epoch
second 0, scores 36 when scored at that moment and 30 when scored 100 days
later, so identical inputs do not always give identical outputs. -/
theorem determinism_counterexample :
    CalculateLeadScore 0 claim6Profile ≠ CalculateLeadScore 8640000 claim6Profile := by
  have hj : scoreJobTitle "" = 30 := by decide
  have hi : scoreIndustry "" = 50 := by decide
  have hl : scoreLocation "" = 60 := by decide
  have he : scoreExperienceLevel "" = 60 := by decide
  have hs : scoreSourceType "" = 50 := by decide
  have hct : scoreContentTypeEngagement [] = 40 := by decide
  have hr1 : scoreRecency 0 (some 0) = 100 := by norm_num [scoreRecency]
  have hr2 : scoreRecency 8640000 (some 0) = 20 := by norm_num [scoreRecency]
  simp only [CalculateLeadScore, claim6Profile, calculateDemographicScore,
    calculateBehavioralScore, calculateFirmographicScore, calculateIntentScore,
    hj, hi, hl, he, hs, hct, hr1, hr2]
  norm_num [scoreEngagementLevel, scoreContentConsumption, scoreWebsiteActivity,
    depthOfVisitScore, scoreCTAInteraction, scoreFormCompletions, ratTrunc, min_def]

theorem anchorBest_fst_aux (freq : String → Nat) (keys : List String) :
    ∀ st : Nat × String,
      (keys.foldl (fun (st : Nat × String) a => if freq a > st.1 then (freq a, a) else st) st).1
        = keys.foldl (fun m a => max m (freq a)) st.1 := by
  induction keys with
  | nil => intro st; rfl
  | cons a t ih =>
      intro st
      simp only [List.foldl_cons]
      rw [ih]
      have hstep : (if freq a > st.1 then (freq a, a) else st).1 = max st.1 (freq a) := by
        split_ifs with h
        · exact (max_eq_right h.le).symm
        · exact (max_eq_left (not_lt.mp h)).symm
      rw [hstep]

open SEO in
theorem anchorBest_fst_perm (freq : String → Nat) (k₁ k₂ : List String) (h : k₁.Perm k₂) :
    (anchorBest freq k₁).1 = (anchorBest freq k₂).1 := by
  unfold anchorBest
  rw [anchorBest_fst_aux, anchorBest_fst_aux]
  exact h.foldl_eq' (fun x _ y _ z => Max.right_comm z (freq x) (freq y)) _

open SEO in
/-- All fields of the anchor-text analysis other than the most-used anchor
(tie-breaking) and the order of the over-optimized list are invariant
under permuting the map iteration order; the over-optimized list itself is
permuted. -/
theorem analyzeAnchorTextsIter_perm (links : List LinkData) (k₁ k₂ : List String)
    (h : k₁.Perm k₂) :
    scrubATA (analyzeAnchorTextsIter k₁ links) = scrubATA (analyzeAnchorTextsIter k₂ links) ∧
      (analyzeAnchorTextsIter k₁ links).overOptimizedAnchors.Perm
        (analyzeAnchorTextsIter k₂ links).overOptimizedAnchors := by
  by_cases h0 : links.length = 0
  · simp [analyzeAnchorTextsIter, h0, scrubATA]
  · simp only [analyzeAnchorTextsIter, if_neg h0]
    refine ⟨?_, h.filter _⟩
    simp only [scrubATA, AnchorTextAnalysis.mk.injEq, and_true, true_and]
    exact ⟨h.length_eq, anchorBest_fst_perm _ _ _ h, by rw [h.length_eq]⟩

open SEO in
/-- Two runs of AnalyzeContent whose anchor-text analyses agree after
scrubATA give equal results after scrubAnchors (only the clock stamp and
the two scrubbed anchor fields differ). -/
theorem scrubAnchors_ATA (t₁ t₂ : ℚ) (a₁ a₂ : AnchorTextAnalysis) (c : ContentData)
    (h : scrubATA a₁ = scrubATA a₂) :
    scrubAnchors (AnalyzeContentATA t₁ a₁ c) = scrubAnchors (AnalyzeContentATA t₂ a₂ c) := by
  obtain ⟨v₁, m₁, f₁, o₁, d₁⟩ := a₁
  obtain ⟨v₂, m₂, f₂, o₂, d₂⟩ := a₂
  simp only [scrubATA, AnchorTextAnalysis.mk.injEq, and_true, true_and] at h
  obtain ⟨hv, hf, hd⟩ := h
  subst hv; subst hf; subst hd
  rfl

open SEO in
/-- Two links whose distinct anchors are tied at 50% frequency each: the
map's iteration order decides MostUsedAnchorText. -/
def claim6TiedLinks : List LinkData :=
  [⟨"https://example.com/1", "alpha", true, true⟩,
   ⟨"https://example.com/2", "beta", true, false⟩]

open SEO in
def claim6Content : ContentData :=
  ⟨0, "", "", "", "", "", [], [], [], [], [], "", "", 0, false⟩

open Analytics in
open SEO in
/-- Claim C6 amended: CalculateContentROI and AnalyzeTrends are pure
functions of their inputs.  AnalyzeContent reads two pieces of hidden
state: the clock (stamped into AnalyzedAt) and the randomized iteration
order of the anchor-count map; AnalyzeContentIter makes both explicit, and
AnalyzeContent is its instance at the canonical first-appearance order.
Over any two clock readings and any two iteration orders (permutations of
the map's key set), the results agree in every field except AnalyzedAt,
MostUsedAnchorText and OverOptimizedAnchors, and the two over-optimized
lists are permutations of each other; the residual nondeterminism is real,
since on two links with distinct anchors tied at 50% the two iteration
orders name different most-used anchors.  CalculateLeadScore depends on
the clock exactly through the recency component, so two calls at times in
the same recency bucket give equal scores. -/
theorem determinism_amended :
    (∀ m₁ m₂ : ContentROIMetrics, m₁ = m₂ → CalculateContentROI m₁ = CalculateContentROI m₂) ∧
    (∀ d₁ d₂ : List TrendDataPoint, d₁ = d₂ → AnalyzeTrends d₁ = AnalyzeTrends d₂) ∧
    (∀ now : ℚ, ∀ c : ContentData,
      AnalyzeContent now c
        = AnalyzeContentIter now (anchorKeys (c.internalLinks ++ c.externalLinks)) c) ∧
    (∀ t₁ t₂ : ℚ, ∀ c : ContentData, ∀ k₁ k₂ : List String,
      k₁.Perm (anchorKeys (c.internalLinks ++ c.externalLinks)) →
      k₂.Perm (anchorKeys (c.internalLinks ++ c.externalLinks)) →
      scrubAnchors (AnalyzeContentIter t₁ k₁ c) = scrubAnchors (AnalyzeContentIter t₂ k₂ c) ∧
      (AnalyzeContentIter t₁ k₁ c).linkAnalysis.anchorTextAnalysis.overOptimizedAnchors.Perm
        (AnalyzeContentIter t₂ k₂ c).linkAnalysis.anchorTextAnalysis.overOptimizedAnchors) ∧
    (["alpha", "beta"].Perm (anchorKeys claim6TiedLinks) ∧
      ["beta", "alpha"].Perm (anchorKeys claim6TiedLinks) ∧
      (analyzeAnchorTextsIter ["alpha", "beta"] claim6TiedLinks).mostUsedAnchorText
        ≠ (analyzeAnchorTextsIter ["beta", "alpha"] claim6TiedLinks).mostUsedAnchorText) ∧
    (∀ t₁ t₂ : ℚ, ∀ p : LeadProfile,
      scoreRecency t₁ p.behavior.lastActivity = scoreRecency t₂ p.behavior.lastActivity →
      CalculateLeadScore t₁ p = CalculateLeadScore t₂ p) := by
  have hstr : anchorStrings claim6TiedLinks = ["alpha", "beta"] := by decide
  have hkeys : anchorKeys claim6TiedLinks = ["alpha", "beta"] := by
    unfold anchorKeys
    rw [hstr]
    simp [dedupFirst]
  refine ⟨fun m₁ m₂ h => by rw [h], fun d₁ d₂ h => by rw [h], fun now c => rfl,
    ?_, ⟨by simp only [hkeys]; exact List.Perm.refl _,
      by simp only [hkeys]; exact List.Perm.swap "alpha" "beta" [], by decide⟩,
    fun t₁ t₂ p h => ?_⟩
  · intro t₁ t₂ c k₁ k₂ h₁ h₂
    have key := analyzeAnchorTextsIter_perm (c.internalLinks ++ c.externalLinks) k₁ k₂
      (h₁.trans h₂.symm)
    exact ⟨scrubAnchors_ATA t₁ t₂ _ _ c key.1, key.2⟩
  · simp only [CalculateLeadScore, calculateBehavioralScore, h]

open Analytics in
open SEO in
/-- Concrete instances of determinism_amended: empty content analyzed at
epoch seconds 0 and 1 under the canonical iteration order gives equal
scrubbed results, and a profile with the zero last-activity time scores
identically at epoch seconds 0 and 86400. -/
theorem determinism_amended_witness :
    scrubAnchors (AnalyzeContentIter 0
        (anchorKeys (claim6Content.internalLinks ++ claim6Content.externalLinks)) claim6Content)
      = scrubAnchors (AnalyzeContentIter 1
        (anchorKeys (claim6Content.internalLinks ++ claim6Content.externalLinks)) claim6Content) ∧
    CalculateLeadScore 0
        { demographics := ⟨"", "", "", ""⟩
          behavior := ⟨0, 0, 0, 0, 0, 0, 0, false, false, false, 0, none⟩
          company := ⟨"", "", "", "", []⟩
          intent := ⟨"", [], 0, 0⟩ }
      = CalculateLeadScore 86400
        { demographics := ⟨"", "", "", ""⟩
          behavior := ⟨0, 0, 0, 0, 0, 0, 0, false, false, false, 0, none⟩
          company := ⟨"", "", "", "", []⟩
          intent := ⟨"", [], 0, 0⟩ } :=
  ⟨(determinism_amended.2.2.2.1 0 1 claim6Content _ _ (List.Perm.refl _) (List.Perm.refl _)).1,
   determinism_amended.2.2.2.2.2 0 86400 _ rfl⟩

/-! ## Claim C10: argument mutation -/

open Analytics in
/-- Claim C10 counterexample: AnalyzeTrends sorts the caller's slice in
place, so after a call on an unsorted two-point series the caller's slice
no longer holds the values in their original order. -/
theorem mutation_counterexample :
    analyzeTrendsSliceAfter [⟨86400, 5⟩, ⟨0, 3⟩] ≠ ([⟨86400, 5⟩, ⟨0, 3⟩] : List TrendDataPoint) := by
  decide

open Analytics in
/-- Claim C10 amended: the calculators do not mutate their inputs except
that AnalyzeTrends reorders the caller's slice into a date-sorted
permutation of itself: the contents are preserved as a multiset, the order
is kept exactly when the input was already sorted (in particular always
when the series has fewer than 2 points). -/
theorem mutation_amended (data : List TrendDataPoint) :
    (analyzeTrendsSliceAfter data).Perm data ∧
    (2 ≤ data.length → (analyzeTrendsSliceAfter data).Sorted byDate) ∧
    (data.Sorted byDate → analyzeTrendsSliceAfter data = data) ∧
    (data.length < 2 → analyzeTrendsSliceAfter data = data) := by
  refine ⟨?_, fun h2 => ?_, fun hs => ?_, fun h1 => ?_⟩
  · unfold analyzeTrendsSliceAfter
    split
    · exact List.Perm.refl data
    · exact List.perm_insertionSort byDate data
  · unfold analyzeTrendsSliceAfter
    rw [if_neg (by omega : ¬ data.length < 2)]
    exact List.sorted_insertionSort byDate data
  · unfold analyzeTrendsSliceAfter
    split
    · rfl
    · exact hs.insertionSort_eq
  · unfold analyzeTrendsSliceAfter
    rw [if_pos h1]

open Analytics in
/-- Concrete instances of mutation_amended: a sorted pair is left alone and
the unsorted pair of the counterexample is returned date-sorted. -/
theorem mutation_amended_witness :
    analyzeTrendsSliceAfter [⟨0, 3⟩, ⟨86400, 5⟩] = ([⟨0, 3⟩, ⟨86400, 5⟩] : List TrendDataPoint) ∧
    (analyzeTrendsSliceAfter [⟨86400, 5⟩, ⟨0, 3⟩]).Perm
      ([⟨86400, 5⟩, ⟨0, 3⟩] : List TrendDataPoint) :=
  ⟨(mutation_amended _).2.2.1 (by
      refine List.sorted_cons.mpr ⟨?_, ?_⟩ <;> simp [byDate] <;> norm_num),
   (mutation_amended _).1⟩

/-! ## Claim C1: lead score range and qualification thresholds -/

namespace Analytics

theorem scoreJobTitle_bounds (t : String) : 0 ≤ scoreJobTitle t ∧ scoreJobTitle t ≤ 100 := by
  simp only [scoreJobTitle]
  split_ifs <;> norm_num

theorem scoreIndustry_bounds (t : String) : 0 ≤ scoreIndustry t ∧ scoreIndustry t ≤ 100 := by
  simp only [scoreIndustry]
  split_ifs <;> norm_num

theorem scoreLocation_bounds (t : String) : 0 ≤ scoreLocation t ∧ scoreLocation t ≤ 100 := by
  simp only [scoreLocation]
  split_ifs <;> norm_num

theorem scoreExperienceLevel_bounds (t : String) :
    0 ≤ scoreExperienceLevel t ∧ scoreExperienceLevel t ≤ 100 := by
  simp only [scoreExperienceLevel]
  split_ifs <;> norm_num

theorem calculateDemographicScore_bounds (d : Demographics) :
    0 ≤ calculateDemographicScore d ∧ calculateDemographicScore d ≤ 100 := by
  obtain ⟨h1, h2⟩ := scoreJobTitle_bounds d.jobTitle
  obtain ⟨h3, h4⟩ := scoreIndustry_bounds d.industry
  obtain ⟨h5, h6⟩ := scoreLocation_bounds d.location
  obtain ⟨h7, h8⟩ := scoreExperienceLevel_bounds d.experienceLevel
  simp only [calculateDemographicScore]
  constructor <;> nlinarith

theorem scoreEngagementLevel_bounds (b : Behavior) :
    0 ≤ scoreEngagementLevel b ∧ scoreEngagementLevel b ≤ 100 := by
  simp only [scoreEngagementLevel]
  refine ⟨le_min (add_nonneg (add_nonneg ?_ ?_) ?_) (by norm_num), min_le_right _ _⟩ <;>
    (split_ifs <;> norm_num)

theorem scoreContentConsumption_bounds (b : Behavior)
    (hdl : 0 ≤ b.downloads) (hse : 0 ≤ b.socialEngagements) :
    0 ≤ scoreContentConsumption b ∧ scoreContentConsumption b ≤ 100 := by
  simp only [scoreContentConsumption]
  refine ⟨le_min (add_nonneg (add_nonneg (add_nonneg ?_ ?_) ?_) ?_) (by norm_num),
    min_le_right _ _⟩
  · split_ifs <;> norm_num
  · have : (0 : ℚ) ≤ (b.downloads : ℚ) := by exact_mod_cast hdl
    linarith
  · split_ifs <;> norm_num
  · have : (0 : ℚ) ≤ (b.socialEngagements : ℚ) := by exact_mod_cast hse
    linarith

theorem depthOfVisitScore_bounds (b : Behavior) :
    0 ≤ depthOfVisitScore b ∧ depthOfVisitScore b ≤ 25 := by
  simp only [depthOfVisitScore]
  split_ifs <;> norm_num

theorem scoreWebsiteActivity_bounds (b : Behavior) (hsq : 0 ≤ b.searchQueries) :
    0 ≤ scoreWebsiteActivity b ∧ scoreWebsiteActivity b ≤ 100 := by
  obtain ⟨hd, _⟩ := depthOfVisitScore_bounds b
  simp only [scoreWebsiteActivity]
  refine ⟨le_min (add_nonneg (add_nonneg (add_nonneg (add_nonneg hd ?_) ?_) ?_) ?_)
    (by norm_num), min_le_right _ _⟩
  · split_ifs <;> norm_num
  · split_ifs <;> norm_num
  · split_ifs <;> norm_num
  · have : (0 : ℚ) ≤ (b.searchQueries : ℚ) := by exact_mod_cast hsq
    linarith

theorem scoreRecency_bounds (now : ℚ) (la : Option ℚ) :
    0 ≤ scoreRecency now la ∧ scoreRecency now la ≤ 100 := by
  cases la with
  | none => simp [scoreRecency]
  | some t =>
      simp only [scoreRecency]
      split_ifs <;> norm_num

theorem calculateBehavioralScore_bounds (now : ℚ) (b : Behavior)
    (hdl : 0 ≤ b.downloads) (hse : 0 ≤ b.socialEngagements) (hsq : 0 ≤ b.searchQueries) :
    0 ≤ calculateBehavioralScore now b ∧ calculateBehavioralScore now b ≤ 100 := by
  obtain ⟨h1, h2⟩ := scoreEngagementLevel_bounds b
  obtain ⟨h3, h4⟩ := scoreContentConsumption_bounds b hdl hse
  obtain ⟨h5, h6⟩ := scoreWebsiteActivity_bounds b hsq
  obtain ⟨h7, h8⟩ := scoreRecency_bounds now b.lastActivity
  simp only [calculateBehavioralScore]
  constructor <;> nlinarith

theorem scoreCompanySize_bounds (t : String) :
    0 ≤ scoreCompanySize t ∧ scoreCompanySize t ≤ 100 := by
  simp only [scoreCompanySize]
  split_ifs <;> norm_num

theorem scoreRevenue_bounds (t : String) : 0 ≤ scoreRevenue t ∧ scoreRevenue t ≤ 100 := by
  simp only [scoreRevenue]
  split_ifs <;> norm_num

theorem scoreTechnologyStack_bounds (l : List String) :
    0 ≤ scoreTechnologyStack l ∧ scoreTechnologyStack l ≤ 100 := by
  simp only [scoreTechnologyStack]
  split_ifs with h
  · norm_num
  · refine ⟨le_min ?_ (by norm_num), min_le_right _ _⟩
    positivity

theorem calculateFirmographicScore_bounds (c : Company) :
    0 ≤ calculateFirmographicScore c ∧ calculateFirmographicScore c ≤ 100 := by
  simp only [calculateFirmographicScore]
  split_ifs with h
  · norm_num
  · obtain ⟨h1, h2⟩ := scoreCompanySize_bounds c.size
    obtain ⟨h3, h4⟩ := scoreIndustry_bounds c.industry
    obtain ⟨h5, h6⟩ := scoreRevenue_bounds c.revenue
    obtain ⟨h7, h8⟩ := scoreTechnologyStack_bounds c.technologyStack
    simp only [scoreIndustryFit]
    constructor <;> nlinarith

theorem scoreSourceType_bounds (t : String) :
    0 ≤ scoreSourceType t ∧ scoreSourceType t ≤ 100 := by
  simp only [scoreSourceType]
  split_ifs <;> norm_num

theorem contentTypeValue_bounds (t : String) :
    0 ≤ contentTypeValue t ∧ contentTypeValue t ≤ 100 := by
  simp only [contentTypeValue]
  split_ifs <;> norm_num

theorem scoreContentTypeEngagement_bounds (l : List String) :
    0 ≤ scoreContentTypeEngagement l ∧ scoreContentTypeEngagement l ≤ 100 := by
  simp only [scoreContentTypeEngagement]
  split_ifs with h
  · norm_num
  · refine ⟨le_min ?_ (by norm_num), min_le_right _ _⟩
    apply div_nonneg
    · apply List.sum_nonneg
      intro x hx
      obtain ⟨t, _, rfl⟩ := List.mem_map.mp hx
      exact (contentTypeValue_bounds t).1
    · positivity

theorem scoreCTAInteraction_bounds (n : Int) :
    0 ≤ scoreCTAInteraction n ∧ scoreCTAInteraction n ≤ 100 := by
  simp only [scoreCTAInteraction]
  split_ifs <;> norm_num

theorem scoreFormCompletions_bounds (n : Int) :
    0 ≤ scoreFormCompletions n ∧ scoreFormCompletions n ≤ 100 := by
  simp only [scoreFormCompletions]
  split_ifs <;> norm_num

theorem calculateIntentScore_bounds (i : Intent) :
    0 ≤ calculateIntentScore i ∧ calculateIntentScore i ≤ 100 := by
  obtain ⟨h1, h2⟩ := scoreSourceType_bounds i.sourceType
  obtain ⟨h3, h4⟩ := scoreContentTypeEngagement_bounds i.contentTypes
  obtain ⟨h5, h6⟩ := scoreCTAInteraction_bounds i.ctaInteractions
  obtain ⟨h7, h8⟩ := scoreFormCompletions_bounds i.formCompletions
  simp only [calculateIntentScore]
  constructor <;> nlinarith

/-- Rank of the qualification tiers, for the monotone-step-function part of
the claim. -/
def qualRank (s : String) : Nat :=
  if s = "hot" then 3 else if s = "warm" then 2 else if s = "cold" then 1 else 0

end Analytics

open Analytics in
def claim1BadProfile : LeadProfile :=
  { demographics := ⟨"", "", "", ""⟩
    behavior := ⟨0, 0, 0, 0, -100, 0, 0, false, false, false, 0, none⟩
    company := ⟨"", "", "", "", []⟩
    intent := ⟨"", [], 0, 0⟩ }

open Analytics in
/-- Claim C1 counterexample: the score is not clamped below.  A profile
whose Downloads counter is -100 (the LeadProfile type does not exclude
negative counters and the code applies no lower cap) scores -102, outside
[0,100]. -/
theorem lead_score_range_counterexample :
    CalculateLeadScore 0 claim1BadProfile = -102 := by
  have hj : scoreJobTitle "" = 30 := by decide
  have hi : scoreIndustry "" = 50 := by decide
  have hl : scoreLocation "" = 60 := by decide
  have he : scoreExperienceLevel "" = 60 := by decide
  have hs : scoreSourceType "" = 50 := by decide
  have hct : scoreContentTypeEngagement [] = 40 := by decide
  simp only [CalculateLeadScore, claim1BadProfile, calculateDemographicScore,
    calculateBehavioralScore, calculateFirmographicScore, calculateIntentScore,
    hj, hi, hl, he, hs, hct]
  norm_num [scoreEngagementLevel, scoreContentConsumption, scoreWebsiteActivity,
    depthOfVisitScore, scoreRecency, scoreCTAInteraction, scoreFormCompletions,
    ratTrunc, min_def]

open Analytics in
/-- Claim C1 amended: for every LeadProfile whose Downloads,
SocialEngagements and SearchQueries counters are nonnegative (the only
fields multiplied without a cap below), CalculateLeadScore lies in [0,100];
AutoQualifyLead maps the score to hot/warm/cold/unqualified by the
thresholds 80/60/40; and the tier is a monotone nondecreasing step function
of the score. -/
theorem lead_score_range_and_tiers (p : LeadProfile) (now : ℚ)
    (hdl : 0 ≤ p.behavior.downloads) (hse : 0 ≤ p.behavior.socialEngagements)
    (hsq : 0 ≤ p.behavior.searchQueries) :
    (0 ≤ CalculateLeadScore now p ∧ CalculateLeadScore now p ≤ 100) ∧
    (∀ s : Int, ∀ q : LeadProfile,
      (80 ≤ s → AutoQualifyLead s q = "hot") ∧
      (60 ≤ s → s < 80 → AutoQualifyLead s q = "warm") ∧
      (40 ≤ s → s < 60 → AutoQualifyLead s q = "cold") ∧
      (s < 40 → AutoQualifyLead s q = "unqualified")) ∧
    (∀ s t : Int, ∀ q : LeadProfile, s ≤ t →
      qualRank (AutoQualifyLead s q) ≤ qualRank (AutoQualifyLead t q)) := by
  refine ⟨?_, fun s q => ?_, fun s t q hst => ?_⟩
  · obtain ⟨h1, h2⟩ := calculateDemographicScore_bounds p.demographics
    obtain ⟨h3, h4⟩ := calculateBehavioralScore_bounds now p.behavior hdl hse hsq
    obtain ⟨h5, h6⟩ := calculateFirmographicScore_bounds p.company
    obtain ⟨h7, h8⟩ := calculateIntentScore_bounds p.intent
    simp only [CalculateLeadScore]
    constructor
    · exact ratTrunc_nonneg (le_min (by nlinarith) (by norm_num))
    · refine ratTrunc_le ?_ (by norm_num)
      push_cast
      exact min_le_right _ _
  · refine ⟨fun h80 => ?_, fun h60 h80 => ?_, fun h40 h60 => ?_, fun h40 => ?_⟩ <;>
      (simp only [AutoQualifyLead]; split_ifs <;> first | rfl | omega)
  · simp only [AutoQualifyLead]
    split_ifs <;> simp [qualRank] <;> omega

open Analytics in
/-- Concrete instance of lead_score_range_and_tiers: an all-zero profile
scores within [0,100] and the tier thresholds evaluate as stated. -/
theorem lead_score_range_and_tiers_witness :
    (0 ≤ CalculateLeadScore 0
        { demographics := ⟨"", "", "", ""⟩
          behavior := ⟨0, 0, 0, 0, 0, 0, 0, false, false, false, 0, none⟩
          company := ⟨"", "", "", "", []⟩
          intent := ⟨"", [], 0, 0⟩ } ∧
      CalculateLeadScore 0
        { demographics := ⟨"", "", "", ""⟩
          behavior := ⟨0, 0, 0, 0, 0, 0, 0, false, false, false, 0, none⟩
          company := ⟨"", "", "", "", []⟩
          intent := ⟨"", [], 0, 0⟩ } ≤ 100) ∧
    AutoQualifyLead 85
      { demographics := ⟨"", "", "", ""⟩
        behavior := ⟨0, 0, 0, 0, 0, 0, 0, false, false, false, 0, none⟩
        company := ⟨"", "", "", "", []⟩
        intent := ⟨"", [], 0, 0⟩ } = "hot" :=
  ⟨(lead_score_range_and_tiers _ 0 (by decide) (by decide) (by decide)).1,
   ((lead_score_range_and_tiers
      { demographics := ⟨"", "", "", ""⟩
        behavior := ⟨0, 0, 0, 0, 0, 0, 0, false, false, false, 0, none⟩
        company := ⟨"", "", "", "", []⟩
        intent := ⟨"", [], 0, 0⟩ } 0 (by decide) (by decide) (by decide)).2.1 85 _).1
      (by norm_num)⟩

/-! ## Claim C2: SEO sub-scores and overall score in [0,100] -/

namespace SEO

theorem ratioPct_bounds {k n : Nat} (hk : k ≤ n) (hn : 0 < n) :
    0 ≤ (k : ℚ) / (n : ℚ) * 100 ∧ (k : ℚ) / (n : ℚ) * 100 ≤ 100 := by
  have hn0 : (0 : ℚ) < (n : ℚ) := by exact_mod_cast hn
  constructor
  · positivity
  · have h1 : (k : ℚ) / (n : ℚ) ≤ 1 := by
      rw [div_le_one hn0]
      exact_mod_cast hk
    nlinarith

theorem analyzeTitleSEO_bounds (t k : String) :
    (0 ≤ (analyzeTitleSEO t k).lengthScore ∧ (analyzeTitleSEO t k).lengthScore ≤ 100) ∧
    (0 ≤ (analyzeTitleSEO t k).keywordScore ∧ (analyzeTitleSEO t k).keywordScore ≤ 100) ∧
    (0 ≤ (analyzeTitleSEO t k).powerWordScore ∧ (analyzeTitleSEO t k).powerWordScore ≤ 100) := by
  simp only [analyzeTitleSEO]
  refine ⟨?_, ?_, le_min (by positivity) (by norm_num), min_le_right _ _⟩
  · split_ifs <;> norm_num
  · split_ifs <;> norm_num

theorem analyzeMetaDescription_bounds (m k : String) :
    (0 ≤ (analyzeMetaDescription m k).lengthScore ∧ (analyzeMetaDescription m k).lengthScore ≤ 100) ∧
    (0 ≤ (analyzeMetaDescription m k).keywordScore ∧ (analyzeMetaDescription m k).keywordScore ≤ 100) ∧
    (0 ≤ (analyzeMetaDescription m k).ctaScore ∧ (analyzeMetaDescription m k).ctaScore ≤ 100) := by
  simp only [analyzeMetaDescription]
  refine ⟨?_, ?_, ?_⟩ <;> (split_ifs <;> norm_num)

theorem analyzeContentStructure_bounds (c : String) (hs : List HeadingData) :
    (0 ≤ (analyzeContentStructure c hs).wordCountScore ∧
      (analyzeContentStructure c hs).wordCountScore ≤ 100) ∧
    (0 ≤ (analyzeContentStructure c hs).h1Score ∧ (analyzeContentStructure c hs).h1Score ≤ 100) ∧
    (0 ≤ (analyzeContentStructure c hs).h2Score ∧ (analyzeContentStructure c hs).h2Score ≤ 100) ∧
    (0 ≤ (analyzeContentStructure c hs).paragraphScore ∧
      (analyzeContentStructure c hs).paragraphScore ≤ 100) := by
  simp only [analyzeContentStructure]
  refine ⟨?_, ?_, ?_, ?_⟩ <;> (split_ifs <;> norm_num)

theorem analyzeKeywordOptimization_bounds (c : ContentData) :
    (0 ≤ (analyzeKeywordOptimization c).primaryKeywordScore ∧
      (analyzeKeywordOptimization c).primaryKeywordScore ≤ 100) ∧
    (0 ≤ (analyzeKeywordOptimization c).introKeywordScore ∧
      (analyzeKeywordOptimization c).introKeywordScore ≤ 100) ∧
    (0 ≤ (analyzeKeywordOptimization c).lsiScore ∧
      (analyzeKeywordOptimization c).lsiScore ≤ 100) := by
  simp only [analyzeKeywordOptimization]
  split_ifs <;>
    refine ⟨⟨?_, ?_⟩, ⟨?_, ?_⟩, ?_, ?_⟩ <;>
      first
        | norm_num
        | exact le_min (by positivity) (by norm_num)
        | exact min_le_right _ _

set_option maxHeartbeats 1000000 in
theorem analyzeReadability_bounds (c : String) :
    (0 ≤ (analyzeReadability c).readabilityScore ∧
      (analyzeReadability c).readabilityScore ≤ 100) ∧
    (0 ≤ (analyzeReadability c).fleschScore ∧ (analyzeReadability c).fleschScore ≤ 100) ∧
    (0 ≤ (analyzeReadability c).transitionWordScore ∧
      (analyzeReadability c).transitionWordScore ≤ 100) := by
  simp only [analyzeReadability]
  split_ifs <;>
    refine ⟨⟨?_, ?_⟩, ⟨?_, ?_⟩, ?_, ?_⟩ <;>
      first
        | norm_num
        | exact le_max_left _ _
        | exact max_le (by norm_num) (min_le_left _ _)
        | exact le_min (by positivity) (by norm_num)
        | exact min_le_right _ _

theorem analyzeURL_bounds (u k : String) :
    (0 ≤ (analyzeURL u k).lengthScore ∧ (analyzeURL u k).lengthScore ≤ 100) ∧
    (0 ≤ (analyzeURL u k).keywordScore ∧ (analyzeURL u k).keywordScore ≤ 100) ∧
    (0 ≤ (analyzeURL u k).structureScore ∧ (analyzeURL u k).structureScore ≤ 100) := by
  simp only [analyzeURL]
  refine ⟨?_, ?_, ?_⟩ <;> (split_ifs <;> norm_num)

theorem analyzeTechnicalSEO_bounds (c : ContentData) :
    (0 ≤ (analyzeTechnicalSEO c).schemaScore ∧ (analyzeTechnicalSEO c).schemaScore ≤ 100) ∧
    (0 ≤ (analyzeTechnicalSEO c).canonicalScore ∧ (analyzeTechnicalSEO c).canonicalScore ≤ 100) ∧
    (0 ≤ (analyzeTechnicalSEO c).loadTimeScore ∧ (analyzeTechnicalSEO c).loadTimeScore ≤ 100) ∧
    (0 ≤ (analyzeTechnicalSEO c).mobileScore ∧ (analyzeTechnicalSEO c).mobileScore ≤ 100) := by
  simp only [analyzeTechnicalSEO]
  refine ⟨?_, ?_, ?_, ?_⟩ <;> (split_ifs <;> norm_num)

theorem analyzeAnchorTexts_bounds (links : List LinkData) :
    0 ≤ (analyzeAnchorTexts links).diversityScore ∧
      (analyzeAnchorTexts links).diversityScore ≤ 100 := by
  simp only [analyzeAnchorTexts]
  split_ifs with h h2
  · norm_num
  · exact ⟨le_min (by positivity) (by norm_num), min_le_right _ _⟩
  · norm_num

theorem analyzeLinkStructure_bounds (il el : List LinkData) :
    (0 ≤ (analyzeLinkStructure il el).internalLinkScore ∧
      (analyzeLinkStructure il el).internalLinkScore ≤ 100) ∧
    (0 ≤ (analyzeLinkStructure il el).externalLinkScore ∧
      (analyzeLinkStructure il el).externalLinkScore ≤ 100) ∧
    (0 ≤ (analyzeLinkStructure il el).anchorTextAnalysis.diversityScore ∧
      (analyzeLinkStructure il el).anchorTextAnalysis.diversityScore ≤ 100) := by
  refine ⟨?_, ?_, ?_⟩
  · simp only [analyzeLinkStructure]
    split_ifs <;> norm_num
  · simp only [analyzeLinkStructure]
    split_ifs <;> norm_num
  · simp only [analyzeLinkStructure]
    exact analyzeAnchorTexts_bounds _

theorem analyzeImageOptimization_bounds (images : List ImageData) :
    (0 ≤ (analyzeImageOptimization images).altTextScore ∧
      (analyzeImageOptimization images).altTextScore ≤ 100) ∧
    (0 ≤ (analyzeImageOptimization images).titleScore ∧
      (analyzeImageOptimization images).titleScore ≤ 100) ∧
    (0 ≤ (analyzeImageOptimization images).fileNameScore ∧
      (analyzeImageOptimization images).fileNameScore ≤ 100) ∧
    (0 ≤ (analyzeImageOptimization images).imageScore ∧
      (analyzeImageOptimization images).imageScore ≤ 100) := by
  simp only [analyzeImageOptimization]
  split_ifs with h
  · norm_num
  · have hn : 0 < images.length := by omega
    have ha := ratioPct_bounds
      (List.length_filter_le (fun i => decide (i.altText ≠ "")) images) hn
    have ht := ratioPct_bounds
      (List.length_filter_le (fun i => decide (i.title ≠ "")) images) hn
    have hf := ratioPct_bounds
      (List.length_filter_le (fun i => isOptimizedFileName i.fileName) images) hn
    refine ⟨ha, ht, hf, ?_, ?_⟩
    · nlinarith [ha.1, ht.1, hf.1]
    · nlinarith [ha.2, ht.2, hf.2, ha.1, ht.1, hf.1]

theorem calculateOverallSEOScore_bounds (a : SEOAnalysis)
    (h1 : 0 ≤ a.titleAnalysis.lengthScore ∧ a.titleAnalysis.lengthScore ≤ 100)
    (h2 : 0 ≤ a.titleAnalysis.keywordScore ∧ a.titleAnalysis.keywordScore ≤ 100)
    (h3 : 0 ≤ a.metaAnalysis.lengthScore ∧ a.metaAnalysis.lengthScore ≤ 100)
    (h4 : 0 ≤ a.metaAnalysis.keywordScore ∧ a.metaAnalysis.keywordScore ≤ 100)
    (h5 : 0 ≤ a.structureAnalysis.wordCountScore ∧ a.structureAnalysis.wordCountScore ≤ 100)
    (h6 : 0 ≤ a.structureAnalysis.h1Score ∧ a.structureAnalysis.h1Score ≤ 100)
    (h7 : 0 ≤ a.structureAnalysis.h2Score ∧ a.structureAnalysis.h2Score ≤ 100)
    (h8 : 0 ≤ a.keywordAnalysis.primaryKeywordScore ∧ a.keywordAnalysis.primaryKeywordScore ≤ 100)
    (h9 : 0 ≤ a.readabilityAnalysis.readabilityScore ∧ a.readabilityAnalysis.readabilityScore ≤ 100)
    (h10 : 0 ≤ a.technicalAnalysis.schemaScore ∧ a.technicalAnalysis.schemaScore ≤ 100)
    (h11 : 0 ≤ a.technicalAnalysis.canonicalScore ∧ a.technicalAnalysis.canonicalScore ≤ 100)
    (h12 : 0 ≤ a.technicalAnalysis.loadTimeScore ∧ a.technicalAnalysis.loadTimeScore ≤ 100)
    (h13 : 0 ≤ a.linkAnalysis.internalLinkScore ∧ a.linkAnalysis.internalLinkScore ≤ 100)
    (h14 : 0 ≤ a.linkAnalysis.externalLinkScore ∧ a.linkAnalysis.externalLinkScore ≤ 100)
    (h15 : 0 ≤ a.imageAnalysis.imageScore ∧ a.imageAnalysis.imageScore ≤ 100) :
    0 ≤ calculateOverallSEOScore a ∧ calculateOverallSEOScore a ≤ 100 := by
  have k1 : (0 : ℚ) ≤ (a.titleAnalysis.lengthScore : ℚ) ∧ (a.titleAnalysis.lengthScore : ℚ) ≤ 100 :=
    ⟨by exact_mod_cast h1.1, by exact_mod_cast h1.2⟩
  have k2 : (0 : ℚ) ≤ (a.titleAnalysis.keywordScore : ℚ) ∧ (a.titleAnalysis.keywordScore : ℚ) ≤ 100 :=
    ⟨by exact_mod_cast h2.1, by exact_mod_cast h2.2⟩
  have k3 : (0 : ℚ) ≤ (a.metaAnalysis.lengthScore : ℚ) ∧ (a.metaAnalysis.lengthScore : ℚ) ≤ 100 :=
    ⟨by exact_mod_cast h3.1, by exact_mod_cast h3.2⟩
  have k4 : (0 : ℚ) ≤ (a.metaAnalysis.keywordScore : ℚ) ∧ (a.metaAnalysis.keywordScore : ℚ) ≤ 100 :=
    ⟨by exact_mod_cast h4.1, by exact_mod_cast h4.2⟩
  have k5 : (0 : ℚ) ≤ (a.structureAnalysis.wordCountScore : ℚ)
      ∧ (a.structureAnalysis.wordCountScore : ℚ) ≤ 100 :=
    ⟨by exact_mod_cast h5.1, by exact_mod_cast h5.2⟩
  have k6 : (0 : ℚ) ≤ (a.structureAnalysis.h1Score : ℚ) ∧ (a.structureAnalysis.h1Score : ℚ) ≤ 100 :=
    ⟨by exact_mod_cast h6.1, by exact_mod_cast h6.2⟩
  have k7 : (0 : ℚ) ≤ (a.structureAnalysis.h2Score : ℚ) ∧ (a.structureAnalysis.h2Score : ℚ) ≤ 100 :=
    ⟨by exact_mod_cast h7.1, by exact_mod_cast h7.2⟩
  have k8 : (0 : ℚ) ≤ (a.keywordAnalysis.primaryKeywordScore : ℚ)
      ∧ (a.keywordAnalysis.primaryKeywordScore : ℚ) ≤ 100 :=
    ⟨by exact_mod_cast h8.1, by exact_mod_cast h8.2⟩
  have k9 : (0 : ℚ) ≤ (a.readabilityAnalysis.readabilityScore : ℚ)
      ∧ (a.readabilityAnalysis.readabilityScore : ℚ) ≤ 100 :=
    ⟨by exact_mod_cast h9.1, by exact_mod_cast h9.2⟩
  have k10 : (0 : ℚ) ≤ (a.technicalAnalysis.schemaScore : ℚ)
      ∧ (a.technicalAnalysis.schemaScore : ℚ) ≤ 100 :=
    ⟨by exact_mod_cast h10.1, by exact_mod_cast h10.2⟩
  have k11 : (0 : ℚ) ≤ (a.technicalAnalysis.canonicalScore : ℚ)
      ∧ (a.technicalAnalysis.canonicalScore : ℚ) ≤ 100 :=
    ⟨by exact_mod_cast h11.1, by exact_mod_cast h11.2⟩
  have k12 : (0 : ℚ) ≤ (a.technicalAnalysis.loadTimeScore : ℚ)
      ∧ (a.technicalAnalysis.loadTimeScore : ℚ) ≤ 100 :=
    ⟨by exact_mod_cast h12.1, by exact_mod_cast h12.2⟩
  have k13 : (0 : ℚ) ≤ (a.linkAnalysis.internalLinkScore : ℚ)
      ∧ (a.linkAnalysis.internalLinkScore : ℚ) ≤ 100 :=
    ⟨by exact_mod_cast h13.1, by exact_mod_cast h13.2⟩
  have k14 : (0 : ℚ) ≤ (a.linkAnalysis.externalLinkScore : ℚ)
      ∧ (a.linkAnalysis.externalLinkScore : ℚ) ≤ 100 :=
    ⟨by exact_mod_cast h14.1, by exact_mod_cast h14.2⟩
  simp only [calculateOverallSEOScore, if_pos (by norm_num : (0 : ℚ) < 0.15 + 0.10 + 0.20 + 0.20 + 0.15 + 0.10 + 0.05 + 0.05)]
  constructor
  · refine ratTrunc_nonneg (le_min ?_ (by norm_num))
    have hnum : (0 : ℚ) ≤
        ((a.titleAnalysis.lengthScore : ℚ) + (a.titleAnalysis.keywordScore : ℚ)) / 2 * 0.15
        + ((a.metaAnalysis.lengthScore : ℚ) + (a.metaAnalysis.keywordScore : ℚ)) / 2 * 0.10
        + ((a.structureAnalysis.wordCountScore : ℚ) + (a.structureAnalysis.h1Score : ℚ)
            + (a.structureAnalysis.h2Score : ℚ)) / 3 * 0.20
        + (a.keywordAnalysis.primaryKeywordScore : ℚ) * 0.20
        + (a.readabilityAnalysis.readabilityScore : ℚ) * 0.15
        + ((a.technicalAnalysis.schemaScore : ℚ) + (a.technicalAnalysis.canonicalScore : ℚ)
            + (a.technicalAnalysis.loadTimeScore : ℚ)) / 3 * 0.10
        + ((a.linkAnalysis.internalLinkScore : ℚ) + (a.linkAnalysis.externalLinkScore : ℚ)) / 2 * 0.05
        + a.imageAnalysis.imageScore * 0.05 := by
      nlinarith [k1.1, k2.1, k3.1, k4.1, k5.1, k6.1, k7.1, k8.1, k9.1, k10.1, k11.1, k12.1,
        k13.1, k14.1, h15.1]
    positivity
  · refine ratTrunc_le ?_ (by norm_num)
    push_cast
    exact min_le_right _ _

end SEO

open SEO in
/-- Claim C2: for every ContentData input, every per-dimension sub-score of
AnalyzeContent (title, meta, structure, keyword, readability, technical,
link, image) lies in [0,100], and so does the overall score. -/
theorem seo_scores_in_range (now : ℚ) (c : ContentData) :
    (0 ≤ (AnalyzeContent now c).titleAnalysis.lengthScore ∧
      (AnalyzeContent now c).titleAnalysis.lengthScore ≤ 100) ∧
    (0 ≤ (AnalyzeContent now c).titleAnalysis.keywordScore ∧
      (AnalyzeContent now c).titleAnalysis.keywordScore ≤ 100) ∧
    (0 ≤ (AnalyzeContent now c).titleAnalysis.powerWordScore ∧
      (AnalyzeContent now c).titleAnalysis.powerWordScore ≤ 100) ∧
    (0 ≤ (AnalyzeContent now c).metaAnalysis.lengthScore ∧
      (AnalyzeContent now c).metaAnalysis.lengthScore ≤ 100) ∧
    (0 ≤ (AnalyzeContent now c).metaAnalysis.keywordScore ∧
      (AnalyzeContent now c).metaAnalysis.keywordScore ≤ 100) ∧
    (0 ≤ (AnalyzeContent now c).metaAnalysis.ctaScore ∧
      (AnalyzeContent now c).metaAnalysis.ctaScore ≤ 100) ∧
    (0 ≤ (AnalyzeContent now c).structureAnalysis.wordCountScore ∧
      (AnalyzeContent now c).structureAnalysis.wordCountScore ≤ 100) ∧
    (0 ≤ (AnalyzeContent now c).structureAnalysis.h1Score ∧
      (AnalyzeContent now c).structureAnalysis.h1Score ≤ 100) ∧
    (0 ≤ (AnalyzeContent now c).structureAnalysis.h2Score ∧
      (AnalyzeContent now c).structureAnalysis.h2Score ≤ 100) ∧
    (0 ≤ (AnalyzeContent now c).structureAnalysis.paragraphScore ∧
      (AnalyzeContent now c).structureAnalysis.paragraphScore ≤ 100) ∧
    (0 ≤ (AnalyzeContent now c).keywordAnalysis.primaryKeywordScore ∧
      (AnalyzeContent now c).keywordAnalysis.primaryKeywordScore ≤ 100) ∧
    (0 ≤ (AnalyzeContent now c).keywordAnalysis.introKeywordScore ∧
      (AnalyzeContent now c).keywordAnalysis.introKeywordScore ≤ 100) ∧
    (0 ≤ (AnalyzeContent now c).keywordAnalysis.lsiScore ∧
      (AnalyzeContent now c).keywordAnalysis.lsiScore ≤ 100) ∧
    (0 ≤ (AnalyzeContent now c).readabilityAnalysis.readabilityScore ∧
      (AnalyzeContent now c).readabilityAnalysis.readabilityScore ≤ 100) ∧
    (0 ≤ (AnalyzeContent now c).readabilityAnalysis.fleschScore ∧
      (AnalyzeContent now c).readabilityAnalysis.fleschScore ≤ 100) ∧
    (0 ≤ (AnalyzeContent now c).readabilityAnalysis.transitionWordScore ∧
      (AnalyzeContent now c).readabilityAnalysis.transitionWordScore ≤ 100) ∧
    (0 ≤ (AnalyzeContent now c).technicalAnalysis.schemaScore ∧
      (AnalyzeContent now c).technicalAnalysis.schemaScore ≤ 100) ∧
    (0 ≤ (AnalyzeContent now c).technicalAnalysis.canonicalScore ∧
      (AnalyzeContent now c).technicalAnalysis.canonicalScore ≤ 100) ∧
    (0 ≤ (AnalyzeContent now c).technicalAnalysis.loadTimeScore ∧
      (AnalyzeContent now c).technicalAnalysis.loadTimeScore ≤ 100) ∧
    (0 ≤ (AnalyzeContent now c).technicalAnalysis.mobileScore ∧
      (AnalyzeContent now c).technicalAnalysis.mobileScore ≤ 100) ∧
    (0 ≤ (AnalyzeContent now c).technicalAnalysis.urlAnalysis.lengthScore ∧
      (AnalyzeContent now c).technicalAnalysis.urlAnalysis.lengthScore ≤ 100) ∧
    (0 ≤ (AnalyzeContent now c).technicalAnalysis.urlAnalysis.keywordScore ∧
      (AnalyzeContent now c).technicalAnalysis.urlAnalysis.keywordScore ≤ 100) ∧
    (0 ≤ (AnalyzeContent now c).technicalAnalysis.urlAnalysis.structureScore ∧
      (AnalyzeContent now c).technicalAnalysis.urlAnalysis.structureScore ≤ 100) ∧
    (0 ≤ (AnalyzeContent now c).linkAnalysis.internalLinkScore ∧
      (AnalyzeContent now c).linkAnalysis.internalLinkScore ≤ 100) ∧
    (0 ≤ (AnalyzeContent now c).linkAnalysis.externalLinkScore ∧
      (AnalyzeContent now c).linkAnalysis.externalLinkScore ≤ 100) ∧
    (0 ≤ (AnalyzeContent now c).linkAnalysis.anchorTextAnalysis.diversityScore ∧
      (AnalyzeContent now c).linkAnalysis.anchorTextAnalysis.diversityScore ≤ 100) ∧
    (0 ≤ (AnalyzeContent now c).imageAnalysis.altTextScore ∧
      (AnalyzeContent now c).imageAnalysis.altTextScore ≤ 100) ∧
    (0 ≤ (AnalyzeContent now c).imageAnalysis.titleScore ∧
      (AnalyzeContent now c).imageAnalysis.titleScore ≤ 100) ∧
    (0 ≤ (AnalyzeContent now c).imageAnalysis.fileNameScore ∧
      (AnalyzeContent now c).imageAnalysis.fileNameScore ≤ 100) ∧
    (0 ≤ (AnalyzeContent now c).imageAnalysis.imageScore ∧
      (AnalyzeContent now c).imageAnalysis.imageScore ≤ 100) ∧
    (0 ≤ (AnalyzeContent now c).overallScore ∧
      (AnalyzeContent now c).overallScore ≤ 100) := by
  obtain ⟨t1, t2, t3⟩ := analyzeTitleSEO_bounds c.title c.primaryKeyword
  obtain ⟨m1, m2, m3⟩ := analyzeMetaDescription_bounds c.metaDescription c.primaryKeyword
  obtain ⟨s1, s2, s3, s4⟩ := analyzeContentStructure_bounds c.content c.headings
  obtain ⟨k1, k2, k3⟩ := analyzeKeywordOptimization_bounds c
  obtain ⟨r1, r2, r3⟩ := analyzeReadability_bounds c.content
  obtain ⟨u1, u2, u3⟩ := analyzeURL_bounds c.url c.primaryKeyword
  obtain ⟨x1, x2, x3, x4⟩ := analyzeTechnicalSEO_bounds c
  obtain ⟨l1, l2, l3⟩ := analyzeLinkStructure_bounds c.internalLinks c.externalLinks
  obtain ⟨i1, i2, i3, i4⟩ := analyzeImageOptimization_bounds c.images
  exact ⟨t1, t2, t3, m1, m2, m3, s1, s2, s3, s4, k1, k2, k3, r1, r2, r3, x1, x2, x3, x4,
    u1, u2, u3, l1, l2, l3, i1, i2, i3, i4,
    calculateOverallSEOScore_bounds _ t1 t2 m1 m2 s1 s2 s3 k1 r1 x1 x2 x3 l1 l2 i4⟩

/-! ## Claim C9: linear daily series regression -/

namespace Analytics

/-- The series of claim C9: n points, one per day starting at epoch second
t0, with values v0, v0+1, v0+2, ... -/
def dailySeries (t0 : Int) (v0 : ℚ) (n : Nat) : List TrendDataPoint :=
  (List.range n).map fun i : ℕ => ⟨t0 + 86400 * (i : Int), v0 + (i : ℚ)⟩

theorem dailySeries_length (t0 : Int) (v0 : ℚ) (n : Nat) :
    (dailySeries t0 v0 n).length = n := by
  simp [dailySeries]

theorem dailySeries_sorted (t0 : Int) (v0 : ℚ) (n : Nat) :
    (dailySeries t0 v0 n).Sorted byDate := by
  unfold dailySeries List.Sorted
  rw [List.pairwise_map]
  refine (List.pairwise_lt_range n).imp ?_
  intro a b hab
  simp only [byDate]
  omega

theorem dailySeries_headI (t0 : Int) (v0 : ℚ) (n : Nat) (hn : 1 ≤ n) :
    (dailySeries t0 v0 n).headI = ⟨t0, v0⟩ := by
  cases n with
  | zero => omega
  | succ m =>
      simp [dailySeries, List.range_succ_eq_map]

theorem list_sum_map_add {α : Type} (l : List α) (f g : α → ℚ) :
    (l.map (fun x => f x + g x)).sum = (l.map f).sum + (l.map g).sum := by
  induction l with
  | nil => simp
  | cons a t ih => simp [ih]; ring

theorem list_sum_map_mul_left {α : Type} (l : List α) (c : ℚ) (f : α → ℚ) :
    (l.map (fun x => c * f x)).sum = c * (l.map f).sum := by
  induction l with
  | nil => simp
  | cons a t ih => simp [ih]; ring

theorem list_range_sum_cast (n : ℕ) :
    ((List.range n).map (fun i : ℕ => (i : ℚ))).sum * 2 = (n : ℚ) * ((n : ℚ) - 1) := by
  induction n with
  | zero => simp
  | succ m ih =>
      rw [List.range_succ, List.map_append, List.sum_append]
      simp only [List.map_cons, List.map_nil, List.sum_cons, List.sum_nil]
      push_cast
      linear_combination ih

theorem list_range_sum_sq (n : ℕ) :
    ((List.range n).map (fun i : ℕ => (i : ℚ) * i)).sum * 6
      = (n : ℚ) * ((n : ℚ) - 1) * (2 * n - 1) := by
  induction n with
  | zero => simp
  | succ m ih =>
      rw [List.range_succ, List.map_append, List.sum_append]
      simp only [List.map_cons, List.map_nil, List.sum_cons, List.sum_nil]
      push_cast
      linear_combination ih

theorem list_range_sum_sq_shift (n : ℕ) (c : ℚ) :
    ((List.range n).map (fun i : ℕ => (c + (i : ℚ)) * (c + (i : ℚ)))).sum
      = (n : ℚ) * (c * c) + 2 * c * ((List.range n).map (fun i : ℕ => (i : ℚ))).sum
        + ((List.range n).map (fun i : ℕ => (i : ℚ) * i)).sum := by
  induction n with
  | zero => simp
  | succ m ih =>
      rw [List.range_succ]
      simp only [List.map_append, List.sum_append, List.map_cons, List.map_nil,
        List.sum_cons, List.sum_nil]
      push_cast
      linear_combination ih

end Analytics

namespace Analytics

theorem list_range_sum_affine (n : ℕ) (v0 : ℚ) :
    ((List.range n).map (fun i : ℕ => v0 + (i : ℚ))).sum
      = n * v0 + ((List.range n).map (fun i : ℕ => (i : ℚ))).sum := by
  induction n with
  | zero => simp
  | succ m ih =>
      rw [List.range_succ]
      simp only [List.map_append, List.sum_append, List.map_cons, List.map_nil,
        List.sum_cons, List.sum_nil]
      push_cast
      linear_combination ih

theorem list_range_sum_xy (n : ℕ) (v0 : ℚ) :
    ((List.range n).map (fun i : ℕ => (i : ℚ) * (v0 + i))).sum
      = v0 * ((List.range n).map (fun i : ℕ => (i : ℚ))).sum
        + ((List.range n).map (fun i : ℕ => (i : ℚ) * i)).sum := by
  induction n with
  | zero => simp
  | succ m ih =>
      rw [List.range_succ]
      simp only [List.map_append, List.sum_append, List.map_cons, List.map_nil,
        List.sum_cons, List.sum_nil]
      push_cast
      linear_combination ih

theorem dailySeries_map_x (t0 : Int) (v0 : ℚ) (n : ℕ) :
    (dailySeries t0 v0 n).map (fun p => xOf t0 p)
      = (List.range n).map (fun i : ℕ => (i : ℚ)) := by
  unfold dailySeries
  rw [List.map_map]
  apply List.map_congr_left
  intro i _
  simp only [Function.comp, xOf]
  push_cast
  ring

theorem dailySeries_map_y (t0 : Int) (v0 : ℚ) (n : ℕ) :
    (dailySeries t0 v0 n).map (fun p => p.value)
      = (List.range n).map (fun i : ℕ => v0 + (i : ℚ)) := by
  unfold dailySeries
  rw [List.map_map]
  apply List.map_congr_left
  intro i _
  simp [Function.comp]

theorem dailySeries_map_xy (t0 : Int) (v0 : ℚ) (n : ℕ) :
    (dailySeries t0 v0 n).map (fun p => xOf t0 p * p.value)
      = (List.range n).map (fun i : ℕ => (i : ℚ) * (v0 + i)) := by
  unfold dailySeries
  rw [List.map_map]
  apply List.map_congr_left
  intro i _
  simp only [Function.comp, xOf]
  push_cast
  ring

theorem dailySeries_map_x2 (t0 : Int) (v0 : ℚ) (n : ℕ) :
    (dailySeries t0 v0 n).map (fun p => xOf t0 p * xOf t0 p)
      = (List.range n).map (fun i : ℕ => (i : ℚ) * i) := by
  unfold dailySeries
  rw [List.map_map]
  apply List.map_congr_left
  intro i _
  simp only [Function.comp, xOf]
  push_cast
  ring

theorem regression_on_dailySeries (t0 : Int) (v0 : ℚ) (n : ℕ) (hn : 2 ≤ n) :
    calculateLinearRegression (dailySeries t0 v0 n) = ⟨1, v0, 1⟩ := by
  have hn0 : ((n : ℚ)) ≠ 0 := by
    have : (2 : ℚ) ≤ (n : ℚ) := by exact_mod_cast hn
    linarith
  have hnn : (2 : ℚ) ≤ (n : ℚ) := by exact_mod_cast hn
  have h2A := list_range_sum_cast n
  have h6B := list_range_sum_sq n
  set A := ((List.range n).map (fun i : ℕ => (i : ℚ))).sum with hA
  set B := ((List.range n).map (fun i : ℕ => (i : ℚ) * i)).sum with hB
  have hden : (n : ℚ) * B - A * A ≠ 0 := by
    have h12 : ((n : ℚ) * B - A * A) * 12 = (n : ℚ) ^ 2 * ((n : ℚ) - 1) * ((n : ℚ) + 1) := by
      linear_combination (2 * (n : ℚ)) * h6B - (3 * (2 * A + (n : ℚ) * ((n : ℚ) - 1))) * h2A
    intro hc
    rw [hc] at h12
    nlinarith
  simp only [calculateLinearRegression, dailySeries_length,
    if_neg (by omega : ¬ n < 2)]
  simp only [dailySeries_headI t0 v0 n (by omega), dailySeries_map_x, dailySeries_map_y,
    dailySeries_map_xy, dailySeries_map_x2, list_range_sum_affine, list_range_sum_xy]
  rw [← hA, ← hB]
  have hslope : ((n : ℚ) * (v0 * A + B) - A * ((n : ℚ) * v0 + A)) / ((n : ℚ) * B - A * A) = 1 := by
    rw [div_eq_one_iff_eq hden]
    ring
  rw [hslope]
  have hint : ((n : ℚ) * v0 + A - 1 * A) / (n : ℚ) = v0 := by
    rw [div_eq_iff hn0]
    ring
  rw [hint]
  have hres : ((dailySeries t0 v0 n).map (fun p =>
      (p.value - (1 * xOf t0 p + v0)) * (p.value - (1 * xOf t0 p + v0)))).sum = 0 := by
    apply List.sum_eq_zero
    intro x hx
    obtain ⟨p, hp, rfl⟩ := List.mem_map.mp hx
    unfold dailySeries at hp
    obtain ⟨i, _, rfl⟩ := List.mem_map.mp hp
    simp only [xOf]
    push_cast
    ring
  rw [hres]
  have htot : ((dailySeries t0 v0 n).map (fun p =>
      (p.value - ((n : ℚ) * v0 + A) / (n : ℚ)) * (p.value - ((n : ℚ) * v0 + A) / (n : ℚ)))).sum
      = ((n : ℚ) * B - A * A) / (n : ℚ) := by
    have hmap : (dailySeries t0 v0 n).map (fun p =>
        (p.value - ((n : ℚ) * v0 + A) / (n : ℚ)) * (p.value - ((n : ℚ) * v0 + A) / (n : ℚ)))
        = (List.range n).map (fun i : ℕ =>
          ((v0 - ((n : ℚ) * v0 + A) / (n : ℚ)) + (i : ℚ))
            * ((v0 - ((n : ℚ) * v0 + A) / (n : ℚ)) + (i : ℚ))) := by
      unfold dailySeries
      rw [List.map_map]
      apply List.map_congr_left
      intro i _
      simp only [Function.comp]
      push_cast
      ring
    rw [hmap, list_range_sum_sq_shift, ← hA, ← hB]
    field_simp
    ring
  rw [htot]
  have htot0 : ((n : ℚ) * B - A * A) / (n : ℚ) ≠ 0 := by
    exact div_ne_zero hden hn0
  rw [if_neg htot0]
  norm_num

end Analytics

open Analytics in
/-- Claim C9: on every equally spaced daily series whose values grow by
exactly 1 per day, the regression slope is exactly 1 (so the direction is
strongly_increasing, slope > 0.1) and RSquared is exactly 1. -/
theorem daily_series_regression (t0 : Int) (v0 : ℚ) (n : ℕ) (hn : 2 ≤ n) :
    (AnalyzeTrends (dailySeries t0 v0 n)).linearRegression.slope = 1 ∧
    (AnalyzeTrends (dailySeries t0 v0 n)).linearRegression.rSquared = 1 ∧
    (AnalyzeTrends (dailySeries t0 v0 n)).trendDirection = "strongly_increasing" := by
  have hsort : sortByDate (dailySeries t0 v0 n) = dailySeries t0 v0 n :=
    (dailySeries_sorted t0 v0 n).insertionSort_eq
  have hreg := regression_on_dailySeries t0 v0 n hn
  simp only [AnalyzeTrends, dailySeries_length, if_neg (by omega : ¬ n < 2), hsort, hreg]
  norm_num [determineTrendDirection]

open Analytics in
/-- Concrete instance of daily_series_regression at the series 1,2,...,30
of the spec. -/
theorem daily_series_regression_witness :
    (AnalyzeTrends (dailySeries 0 1 30)).linearRegression.slope = 1 ∧
    (AnalyzeTrends (dailySeries 0 1 30)).linearRegression.rSquared = 1 ∧
    (AnalyzeTrends (dailySeries 0 1 30)).trendDirection = "strongly_increasing" :=
  daily_series_regression 0 1 30 (by norm_num)

namespace Analytics

/-- A flat daily series of n points at value c with one spike of 10*c at
index i (the claimed 10 times the local mean). -/
def flatSpike (t0 : Int) (c : ℚ) (n i : Nat) : List TrendDataPoint :=
  (List.range n).map fun k : ℕ => ⟨t0 + 86400 * (k : Int), if k = i then 10 * c else c⟩

theorem flatSpike_length (t0 : Int) (c : ℚ) (n i : Nat) : (flatSpike t0 c n i).length = n := by
  simp [flatSpike]

theorem flatSpike_sorted (t0 : Int) (c : ℚ) (n i : Nat) :
    (flatSpike t0 c n i).Sorted byDate := by
  unfold flatSpike List.Sorted
  rw [List.pairwise_map]
  refine (List.pairwise_lt_range n).imp ?_
  intro a b hab
  simp only [byDate]
  omega

theorem flatSpike_getD (t0 : Int) (c : ℚ) (n i j : Nat) (hj : j < n) :
    (flatSpike t0 c n i).getD j default
      = ⟨t0 + 86400 * (j : Int), if j = i then 10 * c else c⟩ := by
  unfold flatSpike
  rw [List.getD_eq_getElem?_getD, List.getElem?_map, List.getElem?_range hj]
  rfl

theorem range_window (i : Nat) (h : 3 ≤ i) :
    List.range' (i - 3) 7 = [i - 3, i - 2, i - 1, i, i + 1, i + 2, i + 3] := by
  simp only [List.range'_succ, List.range', List.cons.injEq, and_true, true_and]
  omega

/-- Evaluation of the anomaly-loop body on the spiked flat series.  The
6-point window around the spike is flat at c, so its standard deviation is
0; the source then leaves zScore = |value - mean| = |9c| (raw deviation,
not a z-score) and compares THAT against the 2.0 threshold. -/
theorem anomalyAt_flatSpike (t0 : Int) (c : ℚ) (n i : Nat) (h7 : 7 ≤ i) (hin : i + 4 ≤ n) :
    anomalyAt (flatSpike t0 c n i) 7 i =
      if 2 < |9 * c| then
        some ⟨t0 + 86400 * (i : Int), 10 * c, c, 9 * c, (9 * c) * (9 * c),
          classifyAnomalyType (10 * c) c⟩
      else none := by
  have e1 : i - 3 ≠ i := by omega
  have e2 : i - 2 ≠ i := by omega
  have e3 : i - 1 ≠ i := by omega
  have e4 : i + 1 ≠ i := by omega
  have e5 : i + 2 ≠ i := by omega
  have e6 : i + 3 ≠ i := by omega
  have hfil : (List.range' (i - 3) 7).filter (fun j => j ≠ i)
      = [i - 3, i - 2, i - 1, i + 1, i + 2, i + 3] := by
    rw [range_window i (by omega)]
    simp [e1, e2, e3, e4, e5, e6]
  have hmap : ([i - 3, i - 2, i - 1, i + 1, i + 2, i + 3].map
      (fun j => ((flatSpike t0 c n i).getD j default).value)) = [c, c, c, c, c, c] := by
    simp only [List.map_cons, List.map_nil]
    rw [flatSpike_getD t0 c n i (i - 3) (by omega), flatSpike_getD t0 c n i (i - 2) (by omega),
      flatSpike_getD t0 c n i (i - 1) (by omega), flatSpike_getD t0 c n i (i + 1) (by omega),
      flatSpike_getD t0 c n i (i + 2) (by omega), flatSpike_getD t0 c n i (i + 3) (by omega)]
    simp [e1, e2, e3, e4, e5, e6]
  unfold anomalyAt
  rw [show (7 : ℕ) / 2 = 3 from rfl, show (3 * 2 + 1 : ℕ) = 7 from rfl, hfil, hmap,
    flatSpike_getD t0 c n i i (by omega)]
  simp only [List.length_cons, List.length_nil, List.sum_cons, List.sum_nil,
    List.map_cons, List.map_nil, if_pos rfl]
  norm_num
  have hmean : (c + (c + (c + (c + (c + c))))) / 6 = c := by ring
  rw [hmean]
  have hzero : c - c = 0 := by ring
  rw [hzero]
  norm_num
  rw [show 10 * c - c = 9 * c from by ring]

end Analytics

set_option maxRecDepth 4000 in
open Analytics in
/-- Claim C8 counterexample: a 15-point flat series at 1/10 with an
interior point at 10 times the local mean is NOT reported: the spike
window is flat, its standard deviation is 0, and the source then compares
the raw deviation |10c - c| = 0.9 (not a z-score) against the 2.0
threshold, so no anomaly is appended. -/
theorem spike_flat_counterexample :
    (AnalyzeTrends (flatSpike 0 (1/10) 15 7)).anomalies = [] := by
  have hsort : sortByDate (flatSpike 0 (1/10) 15 7) = flatSpike 0 (1/10) 15 7 :=
    (flatSpike_sorted 0 (1/10) 15 7).insertionSort_eq
  simp only [AnalyzeTrends, flatSpike_length, if_neg (by omega : ¬ (15:ℕ) < 2), hsort,
    detectAnomalies, if_neg (by omega : ¬ (15:ℕ) < 3), if_neg (by omega : ¬ (15:ℕ) < 7)]
  rw [show (15 - 2 * 7 : ℕ) = 1 from rfl, show List.range' 7 1 = [7] from rfl]
  simp only [List.filterMap_cons, List.filterMap_nil]
  rw [anomalyAt_flatSpike 0 (1/10) 15 7 (by norm_num) (by norm_num)]
  rw [if_neg (by rw [abs_of_pos (by norm_num : (0:ℚ) < 9 * (1/10))]; norm_num)]

open Analytics in
/-- Claim C8 amended: the injected spike in a flat series of at least 15
points is reported as an anomaly of type spike only when the raw
deviation 9c exceeds the 2.0 threshold (the flat window has standard
deviation 0, so the source compares |value - mean| itself, not a z-score,
against 2.0) and the spike index lies in the examined range
[7, n - 8] (the loop skips the first and last windowSize = 7 indices).
Under those conditions the reported anomaly carries date t0 + 86400*i,
value 10c, expected mean c, deviation 9c, and type spike since
10c > 1.5c. -/
theorem spike_flat_amended (t0 : Int) (c : ℚ) (n i : Nat)
    (h15 : 15 ≤ n) (h7 : 7 ≤ i) (hi : i ≤ n - 8) (hc : 2 < 9 * c) :
    (⟨t0 + 86400 * (i : Int), 10 * c, c, 9 * c, (9 * c) * (9 * c), "spike"⟩ : Anomaly)
      ∈ (AnalyzeTrends (flatSpike t0 c n i)).anomalies := by
  have hc0 : (0 : ℚ) < c := by linarith
  have hsort : sortByDate (flatSpike t0 c n i) = flatSpike t0 c n i :=
    (flatSpike_sorted t0 c n i).insertionSort_eq
  simp only [AnalyzeTrends, flatSpike_length, if_neg (by omega : ¬ n < 2), hsort,
    detectAnomalies, if_neg (by omega : ¬ n < 3), if_neg (by omega : ¬ n < 7)]
  rw [List.mem_filterMap]
  refine ⟨i, List.mem_range'_1.mpr ⟨h7, by omega⟩, ?_⟩
  rw [anomalyAt_flatSpike t0 c n i h7 (by omega)]
  rw [if_pos (by rw [abs_of_pos (by linarith : (0:ℚ) < 9 * c)]; exact hc)]
  simp [classifyAnomalyType, if_pos (by nlinarith : c * 1.5 < 10 * c)]

open Analytics in
/-- Concrete instance of spike_flat_amended: the flat series at c = 1 of
length 15 with the spike at index 7 (deviation 9 > 2) is reported. -/
theorem spike_flat_amended_witness :
    (⟨0 + 86400 * ((7 : ℕ) : Int), 10 * 1, 1, 9 * 1, (9 * 1) * (9 * 1), "spike"⟩ : Anomaly)
      ∈ (AnalyzeTrends (flatSpike 0 1 15 7)).anomalies :=
  spike_flat_amended 0 1 15 7 (by norm_num) (by norm_num) (by norm_num) (by norm_num)
